import Mathlib

/-!
Verification of the OoT skinned-mesh vertex reconstruction core of
`fast64_internal/oot/oot_model_classes.py`.

The development shallowly embeds the parsed data model (`SkinVertex`,
`SkinTransformation`, `SkinLimbModif`, `SkinAnimatedLimbData`), the bone
matrix resolver `ootRetrieveMatrixData`, the vertex synthesis loop of
`ootParseAnimatedLimb`, and the segment buffer loader
`ootAddSkinVertexData`.

Modelling conventions:
* Python floats are idealized as exact rationals (`Rat`); the literal
  `0.01` becomes `1/100`.
* `mathutils.Matrix` (external Blender library) enters the code only
  through the observations `to_translation()`, `to_scale()` and
  `to_euler().to_matrix()`; a cached matrix is therefore embedded as the
  record of those three observations (`BlenderMatrix`), and the matrices
  produced by `ootRetrieveMatrixData` — always of the shape
  `Matrix.Translation(t) @ rotation` — as an affine map `OOTMatrix`.
  The source expression `(matrix @ Matrix.Translation(v)).to_translation()`
  is exactly the application of that affine map to the point `v`,
  embedded as `applyOOTMatrix`.
* Python exceptions become an explicit `SkinError` value; each
  constructor corresponds to one raise site (or Python built-in error)
  and carries the dynamic data that the source interpolates into the
  exception message.
* Mutation of `f3dContext.vertexBuffer` and of the `f3dContext.vertexData`
  cache is explicit state passing; a raised exception leaves previously
  performed writes in place, so the loader returns the final buffer
  together with an optional error instead of rolling back.
* `math_eval` (external expression evaluator) is applied to already
  numeric count/start arguments, where it is the identity; `getLimbName`
  reads the caller-supplied limb list, modelled as a total naming
  function per the external-interface contract.
-/

namespace Fast64Skin

/-- A 3D point with exact rational coordinates (embeds `mathutils.Vector`
triples). -/
structure Vec3 where
  x : Rat
  y : Rat
  z : Rat
deriving DecidableEq, Repr

/-- Componentwise vector addition. -/
def vadd (a b : Vec3) : Vec3 := ⟨a.x + b.x, a.y + b.y, a.z + b.z⟩

/-- Scaling a vector by a rational factor (embeds Python `vector * scale`). -/
def vsmul (c : Rat) (v : Vec3) : Vec3 := ⟨v.x * c, v.y * c, v.z * c⟩

/-- A 3x3 linear map with rational entries (embeds the rotation part of a
`mathutils.Matrix`). -/
structure Mat3 where
  m00 : Rat
  m01 : Rat
  m02 : Rat
  m10 : Rat
  m11 : Rat
  m12 : Rat
  m20 : Rat
  m21 : Rat
  m22 : Rat
deriving DecidableEq, Repr

/-- Matrix-vector multiplication for `Mat3`. -/
def mulVec (m : Mat3) (v : Vec3) : Vec3 :=
  ⟨m.m00 * v.x + m.m01 * v.y + m.m02 * v.z,
   m.m10 * v.x + m.m11 * v.y + m.m12 * v.z,
   m.m20 * v.x + m.m21 * v.y + m.m22 * v.z⟩

/-- The matrices produced by `ootRetrieveMatrixData` are always of the
shape `Matrix.Translation(t) @ R.to_4x4()`: an affine map with linear
part `R` and translation `t`. -/
structure OOTMatrix where
  linear : Mat3
  transl : Vec3
deriving DecidableEq, Repr

/-- Applying the affine map: the source computes
`(matrix @ Matrix.Translation(Vector((x, y, z)))).to_translation()`,
which is the image of the point `(x, y, z)` under the affine map. -/
def applyOOTMatrix (m : OOTMatrix) (v : Vec3) : Vec3 :=
  vadd (mulVec m.linear v) m.transl

/-- A cached Blender bone matrix, embedded by the three observations the
source performs on it: `to_translation()`, `to_scale()`, and
`to_euler().to_matrix()` (the rotation part). -/
structure BlenderMatrix where
  to_translation : Vec3
  to_scale : Vec3
  eulerMatrix : Mat3
deriving DecidableEq, Repr

/-- One parsed 7-tuple of the skin vertex array (class `SkinVertex`,
oot_model_classes.py lines 530-547). -/
structure SkinVertex where
  index : Nat
  s : Int
  t : Int
  normX : Int
  normY : Int
  normZ : Int
  alpha : Nat
deriving DecidableEq, Repr

/-- One parsed 5-tuple of the limb transformation array (class
`SkinTransformation`, lines 549-562). -/
structure SkinTransformation where
  limbIndex : Nat
  x : Int
  y : Int
  z : Int
  scale : Nat
deriving DecidableEq, Repr

/-- One limb modification (class `SkinLimbModif`, lines 564-577). -/
structure SkinLimbModif where
  vtxCount : Nat
  transformCount : Nat
  unk_4 : Nat
  skinVertices : List SkinVertex
  limbTransformations : List SkinTransformation
deriving DecidableEq, Repr

/-- The outer parsed structure (class `SkinAnimatedLimbData`, lines
606-617). -/
structure SkinAnimatedLimbData where
  totalVtxCount : Nat
  limbModifCount : Nat
  limbModifications : List SkinLimbModif
  dList : String
deriving DecidableEq, Repr

/-- Modelled from the spec: `VertexWeight` (a (boneIndex, weight) pair)
lives in `f3d/f3d_writer.py`, outside the provided source; the spec
describes it as an ordered (boneIndex, weight) pair. -/
structure VertexWeight where
  limbIndex : Nat
  weight : Rat
deriving DecidableEq, Repr

/-- A synthesized vertex (class `SkinF3DVert`, lines 629-641; its
`F3DVert` base carries position/uv/rgb/normal/alpha/weights). -/
structure SkinF3DVert where
  position : Vec3
  uv : Int × Int
  rgb : Vec3
  normal : Vec3
  alpha : Nat
  weights : List VertexWeight
  modif : SkinLimbModif
deriving DecidableEq, Repr

/-- Modelled from the spec: `BufferVertex` lives in `f3d/f3d_writer.py`,
outside the provided source; per spec section 4.8 it wraps a synthesized
vertex with a bone-name binding (the loader passes `getLimbName(0)` and
the integer `0`). -/
structure BufferVertex where
  f3dVert : SkinF3DVert
  boneName : String
  boneIndex : Nat
deriving DecidableEq, Repr

/-- Every Python exception that the embedded core can raise, one
constructor per raise site or built-in error, carrying the dynamic data
interpolated into the message:
* `missingBoneTransform` — `PluginError("Transform matrix not specified for " + matrixName)`, line 656;
* `bufferOverflow` — `PluginError("Vertex buffer of size ... too small, attempting load into ...")`, lines 1127-1134;
* `indexRange` — `PluginError("Attempted to read vertex data out of bounds...")`, lines 1136-1140;
* `alignmentError` — `PluginError("Segment offset not aligned with sizeof(Vtx)")`, line 410;
* `segmentError` — `PluginError("Vertex data is in a segment and cannot be parsed")`, line 414;
* `keyError` — Python `KeyError` from `f3dContext.vertexData[vertexDataName]`, line 1120;
* `indexError` — Python `IndexError` from an out-of-range list subscript;
* `attributeError` — Python `AttributeError` from `.modif` on a `None` table slot, line 1142. -/
inductive SkinError where
  | missingBoneTransform (matrixName : String)
  | bufferOverflow (bufferSize startIndex endIndex : Nat)
  | indexRange (tableName : String) (tableSize readStart readEnd : Nat)
  | alignmentError
  | segmentError
  | keyError (tableName : String)
  | indexError
  | attributeError
deriving DecidableEq, Repr

/-- The slice of `OOTF3DContext` state the skinning core reads and
writes (class `OOTF3DContext`, lines 332-343, plus the `matrixData`,
`vertexData` and `vertexBuffer` fields inherited from `F3DContext`).
`limbList` is the caller-supplied bone naming scheme. -/
structure OOTF3DContext where
  limbList : Nat → String
  matrixData : List (String × BlenderMatrix)
  vertexData : List (String × List (Option SkinF3DVert))
  vertexBuffer : List (Option BufferVertex)
  isAnimSkinLimb : Bool
  animSkinLimbData : SkinAnimatedLimbData

/-- `getLimbName(self, index): return self.limbList[index]` (lines
345-346). -/
def OOTF3DContext.getLimbName (f3dContext : OOTF3DContext) (index : Nat) : String :=
  f3dContext.limbList index

/-- `ootRetrieveMatrixData` (lines 646-656): look up the bone's cached
Blender matrix by name; if present, recompose translation (divided
componentwise by the matrix scale) with the Euler rotation only; if
absent, raise `PluginError`. -/
def ootRetrieveMatrixData (f3dContext : OOTF3DContext) (limbIndex : Nat) :
    Except SkinError OOTMatrix :=
  let matrixName := f3dContext.getLimbName limbIndex
  match f3dContext.matrixData.lookup matrixName with
  | some blenderMatrix =>
    let matrixScale := blenderMatrix.to_scale
    let matrixTranslation := blenderMatrix.to_translation
    .ok { linear := blenderMatrix.eulerMatrix,
          transl := ⟨matrixTranslation.x / matrixScale.x,
                     matrixTranslation.y / matrixScale.y,
                     matrixTranslation.z / matrixScale.z⟩ }
  | none => .error (.missingBoneTransform matrixName)

/-- The `transformCount == 1` anchor branch (lines 1059-1064):
`limbTransformations[modif.unk_4]` (IndexError when out of range), then
the resolved bone matrix applied to the record's offset, scaled by
`transformEntry.scale * 0.01`. -/
def anchorSingle (f3dContext : OOTF3DContext) (modif : SkinLimbModif) :
    Except SkinError Vec3 :=
  match modif.limbTransformations[modif.unk_4]? with
  | none => .error .indexError
  | some transformEntry =>
    let scale : Rat := (transformEntry.scale : Rat) * (1 / 100)
    match ootRetrieveMatrixData f3dContext transformEntry.limbIndex with
    | .error e => .error e
    | .ok matrix =>
      let transformedPosition :=
        applyOOTMatrix matrix
          ⟨(transformEntry.x : Rat), (transformEntry.y : Rat), (transformEntry.z : Rat)⟩
      .ok (vsmul scale transformedPosition)

/-- The historically disabled `elif False` anchor branch (lines
1067-1069): take the selector-indexed record's offset directly. -/
def anchorDirect (modif : SkinLimbModif) : Except SkinError Vec3 :=
  match modif.limbTransformations[modif.unk_4]? with
  | none => .error .indexError
  | some transformationEntry =>
    .ok ⟨(transformationEntry.x : Rat), (transformationEntry.y : Rat),
         (transformationEntry.z : Rat)⟩

/-- The accumulation loop of the multi-transform anchor branch (lines
1070-1075), with the running `vtxPoint` made explicit. -/
def anchorSumLoop (f3dContext : OOTF3DContext) :
    List SkinTransformation → Vec3 → Except SkinError Vec3
  | [], vtxPoint => .ok vtxPoint
  | transformEntry :: rest, vtxPoint =>
    let scale : Rat := (transformEntry.scale : Rat) * (1 / 100)
    match ootRetrieveMatrixData f3dContext transformEntry.limbIndex with
    | .error e => .error e
    | .ok matrix =>
      let transformedPosition :=
        applyOOTMatrix matrix
          ⟨(transformEntry.x : Rat), (transformEntry.y : Rat), (transformEntry.z : Rat)⟩
      anchorSumLoop f3dContext rest (vadd vtxPoint (vsmul scale transformedPosition))

/-- The multi-transform anchor branch, starting from
`vtxPoint = Vector((0, 0, 0))` (line 1056). -/
def anchorSum (f3dContext : OOTF3DContext) (modif : SkinLimbModif) :
    Except SkinError Vec3 :=
  anchorSumLoop f3dContext modif.limbTransformations ⟨0, 0, 0⟩

/-- The anchor-point computation for one limb modification (lines
1056-1075), including the dead `elif False` branch exactly as written. -/
def computeVtxPoint (f3dContext : OOTF3DContext) (modif : SkinLimbModif) :
    Except SkinError Vec3 :=
  if modif.transformCount = 1 then
    anchorSingle f3dContext modif
  else if (false : Bool) then
    anchorDirect modif
  else
    anchorSum f3dContext modif

/-- The shared weight list (lines 1078-1079): one
`VertexWeight(limbIndex, scale * 0.01)` per transform record. -/
def skinWeightData (limbTransformations : List SkinTransformation) : List VertexWeight :=
  limbTransformations.map
    (fun transformEntry => ⟨transformEntry.limbIndex, (transformEntry.scale : Rat) * (1 / 100)⟩)

/-- The `SkinF3DVert` constructed for one skin vertex record (lines
1082-1090): a copy of the anchor, the record's uv/normal/alpha, constant
white rgb, the shared weight list, and a back-reference to the owning
modification. -/
def mkSkinF3DVert (vtxPoint : Vec3) (weightData : List VertexWeight)
    (modif : SkinLimbModif) (skinVertex : SkinVertex) : SkinF3DVert :=
  { position := ⟨vtxPoint.x, vtxPoint.y, vtxPoint.z⟩
    uv := (skinVertex.s, skinVertex.t)
    rgb := ⟨1, 1, 1⟩
    normal := ⟨(skinVertex.normX : Rat), (skinVertex.normY : Rat), (skinVertex.normZ : Rat)⟩
    alpha := skinVertex.alpha
    weights := weightData
    modif := modif }

/-- The stamping loop (lines 1081-1091):
`vertexData[skinVertex.index] = SkinF3DVert(...)` for every record, in
order; a Python list-assignment with an index at or past the end raises
`IndexError`. -/
def stampVertices (vtxPoint : Vec3) (weightData : List VertexWeight)
    (modif : SkinLimbModif) :
    List SkinVertex → List (Option SkinF3DVert) →
    Except SkinError (List (Option SkinF3DVert))
  | [], vertexData => .ok vertexData
  | skinVertex :: rest, vertexData =>
    if skinVertex.index < vertexData.length then
      stampVertices vtxPoint weightData modif rest
        (vertexData.set skinVertex.index
          (some (mkSkinF3DVert vtxPoint weightData modif skinVertex)))
    else .error .indexError

/-- Processing of one limb modification inside the synthesis loop (lines
1052-1091): compute the anchor and the weight list, then stamp every
skin vertex record. -/
def processModif (f3dContext : OOTF3DContext) (vertexData : List (Option SkinF3DVert))
    (modif : SkinLimbModif) : Except SkinError (List (Option SkinF3DVert)) :=
  match computeVtxPoint f3dContext modif with
  | .error e => .error e
  | .ok vtxPoint =>
    stampVertices vtxPoint (skinWeightData modif.limbTransformations) modif
      modif.skinVertices vertexData

/-- The `for modif in skinAnimLimbData.limbModifications` loop (line
1052). -/
def synthesizeLoop (f3dContext : OOTF3DContext) :
    List SkinLimbModif → List (Option SkinF3DVert) →
    Except SkinError (List (Option SkinF3DVert))
  | [], vertexData => .ok vertexData
  | modif :: rest, vertexData =>
    match processModif f3dContext vertexData modif with
    | .error e => .error e
    | .ok vertexData2 => synthesizeLoop f3dContext rest vertexData2

/-- Synthesis of the whole vertex table (lines 1049-1091), starting from
`vertexData = [None] * skinAnimLimbData.totalVtxCount`. -/
def synthesizeVertexData (f3dContext : OOTF3DContext)
    (skinAnimLimbData : SkinAnimatedLimbData) :
    Except SkinError (List (Option SkinF3DVert)) :=
  synthesizeLoop f3dContext skinAnimLimbData.limbModifications
    (List.replicate skinAnimLimbData.totalVtxCount none)

/-- The per-element copy loop of `ootAddSkinVertexData` (lines
1141-1145), iterating `i` upward while `remaining` counts down.  Each
iteration reads `vertexData[vertexDataOffset + i]` (`IndexError` when
out of range), takes `.modif` of it (`AttributeError` on a `None` slot),
subscripts `modif.limbTransformations[modif.unk_4]` (`IndexError` when
the selector is out of range — the value is then discarded), and only
then writes the wrapped vertex into `vertexBuffer[start + i]`.  An
exception keeps the writes already performed. -/
def skinCopyLoop (limbName0 : String) (vertexData : List (Option SkinF3DVert))
    (vertexDataOffset startIndex : Nat) :
    Nat → Nat → List (Option BufferVertex) →
    List (Option BufferVertex) × Option SkinError
  | _, 0, vertexBuffer => (vertexBuffer, none)
  | i, Nat.succ remaining, vertexBuffer =>
    match vertexData[vertexDataOffset + i]? with
    | none => (vertexBuffer, some .indexError)
    | some none => (vertexBuffer, some .attributeError)
    | some (some vert) =>
      if vert.modif.unk_4 < vert.modif.limbTransformations.length then
        skinCopyLoop limbName0 vertexData vertexDataOffset startIndex (i + 1) remaining
          (vertexBuffer.set (startIndex + i) (some ⟨vert, limbName0, 0⟩))
      else (vertexBuffer, some .indexError)

/-- `ootAddSkinVertexData` (lines 1119-1145): fetch the synthesized
table from the cache (`KeyError` when absent), evaluate count/start
(`math_eval` is the identity on the already numeric arguments embedded
here), check the destination bound then the table bound, and finally run
the copy loop.  Returns the updated context together with the error, if
any. -/
def ootAddSkinVertexData (f3dContext : OOTF3DContext) (num start : Nat)
    (vertexDataName : String) (vertexDataOffset : Nat) :
    OOTF3DContext × Option SkinError :=
  match f3dContext.vertexData.lookup vertexDataName with
  | none => (f3dContext, some (.keyError vertexDataName))
  | some vertexData =>
    let count := num
    if start + count > f3dContext.vertexBuffer.length then
      (f3dContext,
       some (.bufferOverflow f3dContext.vertexBuffer.length start (start + count)))
    else if vertexDataOffset + count > vertexData.length then
      (f3dContext,
       some (.indexRange vertexDataName vertexData.length vertexDataOffset
               (vertexDataOffset + count)))
    else
      let result := skinCopyLoop (f3dContext.getLimbName 0) vertexData vertexDataOffset
        start 0 count f3dContext.vertexBuffer
      ({ f3dContext with vertexBuffer := result.1 }, result.2)

/-- `vtxDataName = f"Segment{pointer >> 24}VtxData"` (line 660). -/
def segmentVtxDataName (pointer : Nat) : String :=
  "Segment" ++ toString (pointer >>> 24) ++ "VtxData"

/-- The debug print loop at lines 1105-1106
(`for vertexNumber, vertex in enumerate(vertexData): print(f"... {vertex.position.x} ...")`):
it dereferences `vertex.position` on every table slot in order, so it
raises `AttributeError` at the first unstamped `None` slot; printing
itself has no other observable effect. -/
def ootVertexDataPrintLoop : List (Option SkinF3DVert) → Option SkinError
  | [] => none
  | some _ :: rest => ootVertexDataPrintLoop rest
  | none :: _ => some .attributeError

/-- `ootParseAnimatedLimb` (lines 658-1116) with the table-relative
offset passed to the loader kept as an explicit argument: when the cache
has no entry for the segment-table name, synthesize the table from the
parsed `animSkinLimbData` and store it (a synthesis exception leaves the
cache untouched, since the store on line 1101 is only reached on
success), then run the per-slot debug loop of lines 1105-1106 — which
raises `AttributeError` on any unstamped slot, after the store but
before the loader ever runs; finally call `ootAddSkinVertexData`. -/
def ootParseAnimatedLimbAt (f3dContext : OOTF3DContext)
    (pointer num start vertexDataOffset : Nat) : OOTF3DContext × Option SkinError :=
  let vtxDataName := segmentVtxDataName pointer
  if (f3dContext.vertexData.lookup vtxDataName).isSome then
    ootAddSkinVertexData f3dContext num start vtxDataName vertexDataOffset
  else
    match synthesizeVertexData f3dContext f3dContext.animSkinLimbData with
    | .error e => (f3dContext, some e)
    | .ok vertexData =>
      let f3dContext2 :=
        { f3dContext with vertexData := (vtxDataName, vertexData) :: f3dContext.vertexData }
      match ootVertexDataPrintLoop vertexData with
      | some e => (f3dContext2, some e)
      | none => ootAddSkinVertexData f3dContext2 num start vtxDataName vertexDataOffset

/-- `ootParseAnimatedLimb` proper: the loader offset is
`int((pointer & 0x00FFFFFF) / 0x10)` (line 1116), exact division for
aligned pointers. -/
def ootParseAnimatedLimb (f3dContext : OOTF3DContext) (pointer num start : Nat) :
    OOTF3DContext × Option SkinError :=
  ootParseAnimatedLimbAt f3dContext pointer num start ((pointer &&& 0xFFFFFF) / 0x10)

/-- The numeric branch of `OOTF3DContext.processVertexDataName` (lines
402-416): the string front end (`hexOrDecInt`, external) has already
produced the pointer value.  On the skin-limb path, a pointer whose low
24 bits are not a multiple of `0x10` raises the alignment error;
otherwise `ootParseAnimatedLimb` runs.  Off the skin-limb path the
segment error is raised. -/
def processVertexDataName (f3dContext : OOTF3DContext) (pointer num start : Nat) :
    OOTF3DContext × Option SkinError :=
  if f3dContext.isAnimSkinLimb then
    if (pointer &&& 0xFFFFFF) % 0x10 ≠ 0 then
      (f3dContext, some .alignmentError)
    else
      ootParseAnimatedLimb f3dContext pointer num start
  else
    (f3dContext, some .segmentError)

/-- All (modification, record) stamping events that target slot `j`, in
processing order: modifications in source order, and within one
modification its skin vertex records in array order. -/
def stampsFor : List SkinLimbModif → Nat → List (SkinLimbModif × SkinVertex)
  | [], _ => []
  | modif :: rest, j =>
    ((modif.skinVertices.filter (fun sv => sv.index == j)).map (fun sv => (modif, sv)))
      ++ stampsFor rest j

/-! Concrete fixtures used by the witness theorems. -/

/-- The identity 3x3 matrix (a bone with no rotation). -/
def idMat3 : Mat3 := ⟨1, 0, 0, 0, 1, 0, 0, 0, 1⟩

/-- A concrete two-bone naming scheme. -/
def wLimbList : Nat → String := fun i => if i = 0 then "limbA" else "limbB"

/-- Cached matrix for bone 0: world translation (10,0,0), unit scale, no
rotation. -/
def wBlenderA : BlenderMatrix := ⟨⟨10, 0, 0⟩, ⟨1, 1, 1⟩, idMat3⟩

/-- Cached matrix for bone 1: world translation (0,10,0), unit scale, no
rotation. -/
def wBlenderB : BlenderMatrix := ⟨⟨0, 10, 0⟩, ⟨1, 1, 1⟩, idMat3⟩

/-- The resolved game-space transform of bone 0. -/
def wMatA : OOTMatrix := ⟨idMat3, ⟨10, 0, 0⟩⟩

/-- The resolved game-space transform of bone 1. -/
def wMatB : OOTMatrix := ⟨idMat3, ⟨0, 10, 0⟩⟩

/-- A skin vertex record targeting slot 0. -/
def wSkinVertex0 : SkinVertex := ⟨0, 0, 0, 0, 0, 0, 255⟩

/-- A skin vertex record targeting slot 1. -/
def wSkinVertex1 : SkinVertex := ⟨1, 3, 4, 0, 0, 1, 200⟩

/-- A transform record on bone 0 with offset (0,0,0) and scale 150. -/
def wEntry150 : SkinTransformation := ⟨0, 0, 0, 0, 150⟩

/-- A modification with exactly one transform record (scale 150) and two
vertex records. -/
def wModifSingle : SkinLimbModif := ⟨2, 1, 0, [wSkinVertex0, wSkinVertex1], [wEntry150]⟩

/-- Parsed data: table capacity 2, one single-transform modification. -/
def wData : SkinAnimatedLimbData := ⟨2, 1, [wModifSingle], "gSkinDL"⟩

/-- A context with both bones cached, an empty vertex-table cache, and a
two-slot destination buffer. -/
def wCtx : OOTF3DContext :=
  ⟨wLimbList, [("limbA", wBlenderA), ("limbB", wBlenderB)], [], [none, none], true, wData⟩

/-- A transform record on bone 0, offset (0,0,0), scale 50. -/
def wEntryA50 : SkinTransformation := ⟨0, 0, 0, 0, 50⟩

/-- A transform record on bone 1, offset (0,0,0), scale 50. -/
def wEntryB50 : SkinTransformation := ⟨1, 0, 0, 0, 50⟩

/-- A modification with two transform records of scale 50 each. -/
def wModifSum : SkinLimbModif := ⟨0, 2, 0, [], [wEntryA50, wEntryB50]⟩

/-- The resolver restricted to the two concrete bones. -/
def wResolve : SkinTransformation → OOTMatrix :=
  fun e => if e.limbIndex = 0 then wMatA else wMatB

/-- A context whose matrix cache only holds bone 0, so that bone 1 is
unresolved. -/
def wCtxC5 : OOTF3DContext := ⟨wLimbList, [("limbA", wBlenderA)], [], [], true, wData⟩

/-- A concrete synthesized vertex with literal components and a valid
selector in its owning modification. -/
def wVertPlain : SkinF3DVert :=
  ⟨⟨1, 2, 3⟩, (0, 0), ⟨1, 1, 1⟩, ⟨0, 0, 0⟩, 255, [], wModifSingle⟩

/-- A one-slot synthesized table holding `wVertPlain`. -/
def wTablePlain : List (Option SkinF3DVert) := [some wVertPlain]

/-- A context whose cache maps "tbl" to the one-slot table, with a
two-slot destination buffer. -/
def wCtxC6 : OOTF3DContext := ⟨wLimbList, [], [("tbl", wTablePlain)], [none, none], true, wData⟩

/-- A context whose cache maps the segment-8 table name to an empty
table, with a four-slot destination buffer. -/
def wCtxC3 : OOTF3DContext :=
  ⟨wLimbList, [], [("Segment8VtxData", [])], [none, none, none, none], true, wData⟩

/-- A modification whose selector (5) is out of range of its one-element
transform list. -/
def wModifBad : SkinLimbModif := ⟨1, 1, 5, [wSkinVertex0], [wEntry150]⟩

/-- A synthesized vertex whose owning modification has the bad
selector. -/
def wVertBad : SkinF3DVert :=
  ⟨⟨0, 0, 0⟩, (0, 0), ⟨1, 1, 1⟩, ⟨0, 0, 0⟩, 255, [], wModifBad⟩

/-- A four-slot table: a good vertex, an unstamped empty slot, a good
vertex, and a vertex with a bad selector. -/
def wTableC10 : List (Option SkinF3DVert) :=
  [some wVertPlain, none, some wVertPlain, some wVertBad]

/-- A context whose cache maps "tbl" to the four-slot table, with a
three-slot destination buffer. -/
def wCtxC10 : OOTF3DContext :=
  ⟨wLimbList, [], [("tbl", wTableC10)], [none, none, none], true, wData⟩

/-- The table synthesized from the concrete single-modification data
(kept symbolic so that it is definitionally the synthesis result). -/
def wSynthTable : List (Option SkinF3DVert) :=
  (synthesizeVertexData wCtx wData).toOption.getD []

/-- Parsed data whose declared capacity (1) undercounts the vertex
index 1 used by its modification. -/
def wDataBad : SkinAnimatedLimbData := ⟨1, 1, [wModifSingle], "gSkinDL"⟩


/-! Theorems. -/

/-- Bone 0 of the concrete two-bone context resolves to the identity
rotation with translation (10,0,0). -/
theorem wRetrieveA : ootRetrieveMatrixData wCtx 0 = .ok wMatA := by
  have h : wCtx.matrixData.lookup (wCtx.getLimbName 0) = some wBlenderA := rfl
  rw [show ootRetrieveMatrixData wCtx 0 =
      .ok { linear := wBlenderA.eulerMatrix,
            transl := ⟨wBlenderA.to_translation.x / wBlenderA.to_scale.x,
                       wBlenderA.to_translation.y / wBlenderA.to_scale.y,
                       wBlenderA.to_translation.z / wBlenderA.to_scale.z⟩ }
    from by simp only [ootRetrieveMatrixData, h]]
  norm_num [wBlenderA, wMatA, idMat3]

/-- Bone 1 of the concrete two-bone context resolves to the identity
rotation with translation (0,10,0). -/
theorem wRetrieveB : ootRetrieveMatrixData wCtx 1 = .ok wMatB := by
  have h : wCtx.matrixData.lookup (wCtx.getLimbName 1) = some wBlenderB := rfl
  rw [show ootRetrieveMatrixData wCtx 1 =
      .ok { linear := wBlenderB.eulerMatrix,
            transl := ⟨wBlenderB.to_translation.x / wBlenderB.to_scale.x,
                       wBlenderB.to_translation.y / wBlenderB.to_scale.y,
                       wBlenderB.to_translation.z / wBlenderB.to_scale.z⟩ }
    from by simp only [ootRetrieveMatrixData, h]]
  norm_num [wBlenderB, wMatB, idMat3]

/-- C9: the historically disabled `elif False` direct-assignment branch
is unreachable — for every context and limb modification the anchor
computation takes either the single-transform branch or the summation
branch, never `anchorDirect`. -/
theorem computeVtxPoint_direct_branch_unreachable (f3dContext : OOTF3DContext)
    (modif : SkinLimbModif) :
    computeVtxPoint f3dContext modif =
      if modif.transformCount = 1 then anchorSingle f3dContext modif
      else anchorSum f3dContext modif := by
  unfold computeVtxPoint
  by_cases h : modif.transformCount = 1 <;> simp [h]

/-- C5: the bone matrix resolver fails with the missing-bone-transform
error naming the unresolved bone whenever the matrix cache has no entry
for that bone's name (never substituting a default), and when an entry
exists it returns the transform recomposed from the cached translation
divided componentwise by the cached scale, combined with the rotation
only — the scale component is discarded. -/
theorem ootRetrieveMatrixData_spec (f3dContext : OOTF3DContext) (limbIndex : Nat) :
    (f3dContext.matrixData.lookup (f3dContext.getLimbName limbIndex) = none →
      ootRetrieveMatrixData f3dContext limbIndex =
        .error (.missingBoneTransform (f3dContext.getLimbName limbIndex)))
    ∧ (∀ blenderMatrix : BlenderMatrix,
        f3dContext.matrixData.lookup (f3dContext.getLimbName limbIndex) = some blenderMatrix →
        ootRetrieveMatrixData f3dContext limbIndex =
          .ok { linear := blenderMatrix.eulerMatrix,
                transl := ⟨blenderMatrix.to_translation.x / blenderMatrix.to_scale.x,
                           blenderMatrix.to_translation.y / blenderMatrix.to_scale.y,
                           blenderMatrix.to_translation.z / blenderMatrix.to_scale.z⟩ }) := by
  constructor
  · intro h
    simp only [ootRetrieveMatrixData, h]
  · intro blenderMatrix h
    simp only [ootRetrieveMatrixData, h]

/-- Witness for C5 at a concrete cache: bone 1 ("limbB") is uncached and
fails naming it; bone 0 ("limbA") resolves to translation (10,0,0)
divided by unit scale with identity rotation. -/
theorem ootRetrieveMatrixData_spec_witness :
    ootRetrieveMatrixData wCtxC5 1 = .error (.missingBoneTransform "limbB")
    ∧ ootRetrieveMatrixData wCtxC5 0 = .ok ⟨idMat3, ⟨10, 0, 0⟩⟩ := by
  constructor
  · exact (ootRetrieveMatrixData_spec wCtxC5 1).1 rfl
  · have h := (ootRetrieveMatrixData_spec wCtxC5 0).2 wBlenderA rfl
    rw [h]
    norm_num [wBlenderA, idMat3]

/-- A stamped table slot whose content has the anchor position keeps a
content with the anchor position through the rest of the stamping loop
(every write of the loop carries the same anchor). -/
theorem stampVertices_pos_mono (vtxPoint : Vec3) (weightData : List VertexWeight)
    (modif : SkinLimbModif) :
    ∀ (svs : List SkinVertex) (table table2 : List (Option SkinF3DVert)),
      stampVertices vtxPoint weightData modif svs table = .ok table2 →
      ∀ j : Nat,
        (∃ v0 : SkinF3DVert, table[j]? = some (some v0) ∧
          v0.position = ⟨vtxPoint.x, vtxPoint.y, vtxPoint.z⟩) →
        ∃ v1 : SkinF3DVert, table2[j]? = some (some v1) ∧
          v1.position = ⟨vtxPoint.x, vtxPoint.y, vtxPoint.z⟩ := by
  intro svs
  induction svs with
  | nil =>
    intro table table2 h j hj
    simp only [stampVertices] at h
    cases h
    exact hj
  | cons sv rest ih =>
    intro table table2 h j hj
    simp only [stampVertices] at h
    by_cases hlt : sv.index < table.length
    · rw [if_pos hlt] at h
      refine ih _ _ h j ?_
      by_cases hji : sv.index = j
      · subst hji
        exact ⟨mkSkinF3DVert vtxPoint weightData modif sv,
          by rw [List.getElem?_set_self hlt], rfl⟩
      · obtain ⟨v0, hv0, hpos⟩ := hj
        exact ⟨v0, by rw [List.getElem?_set_ne hji]; exact hv0, hpos⟩
    · rw [if_neg hlt] at h
      exact Except.noConfusion h

/-- Every skin vertex record stamped by the loop ends with its slot
holding a vertex whose position is the anchor. -/
theorem stampVertices_mem (vtxPoint : Vec3) (weightData : List VertexWeight)
    (modif : SkinLimbModif) :
    ∀ (svs : List SkinVertex) (table table2 : List (Option SkinF3DVert)),
      stampVertices vtxPoint weightData modif svs table = .ok table2 →
      ∀ sv ∈ svs, ∃ v : SkinF3DVert, table2[sv.index]? = some (some v) ∧
        v.position = ⟨vtxPoint.x, vtxPoint.y, vtxPoint.z⟩ := by
  intro svs
  induction svs with
  | nil =>
    intro table table2 _ sv hsv
    cases hsv
  | cons sv0 rest ih =>
    intro table table2 h sv hsv
    simp only [stampVertices] at h
    by_cases hlt : sv0.index < table.length
    · rw [if_pos hlt] at h
      rcases List.mem_cons.mp hsv with rfl | hsv2
      · refine stampVertices_pos_mono vtxPoint weightData modif rest _ _ h sv.index ?_
        exact ⟨mkSkinF3DVert vtxPoint weightData modif sv,
          by rw [List.getElem?_set_self hlt], rfl⟩
      · exact ih _ _ h sv hsv2
    · rw [if_neg hlt] at h
      exact Except.noConfusion h

/-- C1: for a limb modification with exactly one transform record and a
valid selector, the anchor is the resolved bone transform of the
selector-indexed record applied to that record's (x,y,z) offset,
multiplied by `transforms[selector].scale × 0.01` (the selector-indexed
scale factor, not an unconditional 1.0), and every vertex of the
modification receives a copy of this anchor as its position. -/
theorem anchorSingle_spec (f3dContext : OOTF3DContext) (modif : SkinLimbModif)
    (transformEntry : SkinTransformation) (matrix : OOTMatrix)
    (h1 : modif.transformCount = 1)
    (h2 : modif.limbTransformations = [transformEntry])
    (h3 : modif.unk_4 < modif.limbTransformations.length)
    (h4 : ootRetrieveMatrixData f3dContext transformEntry.limbIndex = .ok matrix) :
    computeVtxPoint f3dContext modif =
      .ok (vsmul ((transformEntry.scale : Rat) * (1 / 100))
            (applyOOTMatrix matrix
              ⟨(transformEntry.x : Rat), (transformEntry.y : Rat), (transformEntry.z : Rat)⟩))
    ∧ ∀ table table2 : List (Option SkinF3DVert),
        processModif f3dContext table modif = .ok table2 →
        ∀ sv ∈ modif.skinVertices, ∃ v : SkinF3DVert,
          table2[sv.index]? = some (some v) ∧
          v.position = vsmul ((transformEntry.scale : Rat) * (1 / 100))
            (applyOOTMatrix matrix
              ⟨(transformEntry.x : Rat), (transformEntry.y : Rat), (transformEntry.z : Rat)⟩) := by
  have hzero : modif.unk_4 = 0 := by
    rw [h2] at h3
    simpa using h3
  have hget : modif.limbTransformations[modif.unk_4]? = some transformEntry := by
    rw [h2, hzero]
    rfl
  have hanchor : computeVtxPoint f3dContext modif =
      .ok (vsmul ((transformEntry.scale : Rat) * (1 / 100))
            (applyOOTMatrix matrix
              ⟨(transformEntry.x : Rat), (transformEntry.y : Rat), (transformEntry.z : Rat)⟩)) := by
    unfold computeVtxPoint
    rw [if_pos h1]
    unfold anchorSingle
    rw [hget]
    simp only [h4]
  refine ⟨hanchor, ?_⟩
  intro table table2 h sv hsv
  unfold processModif at h
  rw [hanchor] at h
  have := stampVertices_mem _ _ _ _ _ _ h sv hsv
  simpa using this

/-- Witness for C1: scale 150, resolved bone world-translation (10,0,0),
offset (0,0,0) — the anchor is (15,0,0), and the vertex record targeting
slot 1 is stamped with it. -/
theorem anchorSingle_spec_witness :
    computeVtxPoint wCtx wModifSingle = .ok ⟨15, 0, 0⟩
    ∧ ∃ v : SkinF3DVert,
        ((stampVertices
          (vsmul ((wEntry150.scale : Rat) * (1 / 100))
            (applyOOTMatrix wMatA ⟨(wEntry150.x : Rat), (wEntry150.y : Rat), (wEntry150.z : Rat)⟩))
          (skinWeightData wModifSingle.limbTransformations) wModifSingle
          wModifSingle.skinVertices [none, none]).toOption.getD [])[1]?
          = some (some v)
        ∧ v.position = ⟨15, 0, 0⟩ := by
  have h := anchorSingle_spec wCtx wModifSingle wEntry150 wMatA rfl rfl (by decide) wRetrieveA
  have hval : vsmul ((wEntry150.scale : Rat) * (1 / 100))
      (applyOOTMatrix wMatA ⟨(wEntry150.x : Rat), (wEntry150.y : Rat), (wEntry150.z : Rat)⟩)
      = ⟨15, 0, 0⟩ := by
    norm_num [wEntry150, wMatA, idMat3, vsmul, applyOOTMatrix, vadd, mulVec]
  constructor
  · rw [h.1, hval]
  · have hp : processModif wCtx [none, none] wModifSingle =
        stampVertices
          (vsmul ((wEntry150.scale : Rat) * (1 / 100))
            (applyOOTMatrix wMatA ⟨(wEntry150.x : Rat), (wEntry150.y : Rat), (wEntry150.z : Rat)⟩))
          (skinWeightData wModifSingle.limbTransformations) wModifSingle
          wModifSingle.skinVertices [none, none] := by
      unfold processModif
      rw [h.1]
    have hstamp : stampVertices
        (vsmul ((wEntry150.scale : Rat) * (1 / 100))
          (applyOOTMatrix wMatA ⟨(wEntry150.x : Rat), (wEntry150.y : Rat), (wEntry150.z : Rat)⟩))
        (skinWeightData wModifSingle.limbTransformations) wModifSingle
        wModifSingle.skinVertices [none, none] =
        .ok [some (mkSkinF3DVert
              (vsmul ((wEntry150.scale : Rat) * (1 / 100))
                (applyOOTMatrix wMatA ⟨(wEntry150.x : Rat), (wEntry150.y : Rat), (wEntry150.z : Rat)⟩))
              (skinWeightData wModifSingle.limbTransformations) wModifSingle wSkinVertex0),
             some (mkSkinF3DVert
              (vsmul ((wEntry150.scale : Rat) * (1 / 100))
                (applyOOTMatrix wMatA ⟨(wEntry150.x : Rat), (wEntry150.y : Rat), (wEntry150.z : Rat)⟩))
              (skinWeightData wModifSingle.limbTransformations) wModifSingle wSkinVertex1)] := rfl
    obtain ⟨v, hv, hvpos⟩ :=
      h.2 [none, none] _ (hp.trans hstamp) wSkinVertex1 (by simp [wModifSingle])
    refine ⟨v, ?_, by rw [hvpos, hval]⟩
    rw [hstamp]
    exact hv

/-- The accumulation loop of the summation branch computes the left fold
of the per-record weighted world positions over the running point. -/
theorem anchorSumLoop_spec (f3dContext : OOTF3DContext)
    (f : SkinTransformation → OOTMatrix) :
    ∀ (list : List SkinTransformation) (acc : Vec3),
      (∀ e ∈ list, ootRetrieveMatrixData f3dContext e.limbIndex = .ok (f e)) →
      anchorSumLoop f3dContext list acc =
        .ok (list.foldl
          (fun a e => vadd a (vsmul ((e.scale : Rat) * (1 / 100))
            (applyOOTMatrix (f e) ⟨(e.x : Rat), (e.y : Rat), (e.z : Rat)⟩))) acc) := by
  intro list
  induction list with
  | nil =>
    intro acc _
    rfl
  | cons e rest ih =>
    intro acc hf
    have he : ootRetrieveMatrixData f3dContext e.limbIndex = .ok (f e) :=
      hf e (by simp)
    simp only [anchorSumLoop, he, List.foldl_cons]
    exact ih _ (fun e2 he2 => hf e2 (by simp [he2]))

/-- C2: for a limb modification with two or more transform records, the
anchor is the sum, over all records in order, of each record's resolved
bone transform applied to its own (x,y,z) offset, weighted by its own
`scale × 0.01`. -/
theorem anchorSum_spec (f3dContext : OOTF3DContext) (modif : SkinLimbModif)
    (f : SkinTransformation → OOTMatrix)
    (h1 : modif.transformCount = modif.limbTransformations.length)
    (h2 : 2 ≤ modif.limbTransformations.length)
    (hf : ∀ e ∈ modif.limbTransformations,
      ootRetrieveMatrixData f3dContext e.limbIndex = .ok (f e)) :
    computeVtxPoint f3dContext modif =
      .ok (modif.limbTransformations.foldl
        (fun a e => vadd a (vsmul ((e.scale : Rat) * (1 / 100))
          (applyOOTMatrix (f e) ⟨(e.x : Rat), (e.y : Rat), (e.z : Rat)⟩))) ⟨0, 0, 0⟩) := by
  have hne : modif.transformCount ≠ 1 := by omega
  unfold computeVtxPoint
  rw [if_neg hne, if_neg Bool.false_ne_true]
  exact anchorSumLoop_spec f3dContext f modif.limbTransformations ⟨0, 0, 0⟩ hf

/-- Witness for C2: two records of scale 50 on bones resolving to world
positions (10,0,0) and (0,10,0) — the anchor is (5,5,0). -/
theorem anchorSum_spec_witness :
    computeVtxPoint wCtx wModifSum = .ok ⟨5, 5, 0⟩ := by
  have hf : ∀ e ∈ wModifSum.limbTransformations,
      ootRetrieveMatrixData wCtx e.limbIndex = .ok (wResolve e) := by
    intro e he
    rcases List.mem_cons.mp he with rfl | he2
    · exact wRetrieveA
    · rcases List.mem_cons.mp he2 with rfl | he3
      · exact wRetrieveB
      · cases he3
  have h := anchorSum_spec wCtx wModifSum wResolve rfl (by decide) hf
  rw [h]
  norm_num [wModifSum, wEntryA50, wEntryB50, wResolve, wMatA, wMatB, idMat3,
    vadd, vsmul, applyOOTMatrix, mulVec]

/-- C3 (amended): loading a window fails with the buffer-overflow error
naming both sizes whenever `start + count` exceeds the destination
buffer's capacity; when the destination bound holds but
`tableOffset + count` exceeds the synthesized table's length it fails
with the index-range error naming the table and the requested range; in
both failure cases the context — and so the destination buffer — is
returned completely unchanged, because both bounds are validated before
any copying begins. -/
theorem ootAddSkinVertexData_bounds (f3dContext : OOTF3DContext) (num start : Nat)
    (vertexDataName : String) (vertexDataOffset : Nat)
    (vertexData : List (Option SkinF3DVert))
    (hlook : f3dContext.vertexData.lookup vertexDataName = some vertexData) :
    (start + num > f3dContext.vertexBuffer.length →
      ootAddSkinVertexData f3dContext num start vertexDataName vertexDataOffset =
        (f3dContext,
          some (.bufferOverflow f3dContext.vertexBuffer.length start (start + num))))
    ∧ (start + num ≤ f3dContext.vertexBuffer.length →
       vertexDataOffset + num > vertexData.length →
      ootAddSkinVertexData f3dContext num start vertexDataName vertexDataOffset =
        (f3dContext,
          some (.indexRange vertexDataName vertexData.length vertexDataOffset
            (vertexDataOffset + num)))) := by
  constructor
  · intro hb
    simp only [ootAddSkinVertexData, hlook]
    rw [if_pos hb]
  · intro hb ht
    simp only [ootAddSkinVertexData, hlook]
    rw [if_neg (by omega), if_pos ht]

/-- Counterexample to C3 as stated: with a four-slot buffer, an empty
cached table, start 0 and count 5, both bounds are exceeded, yet the
load fails with the buffer-overflow error and not with the index-range
error — so "fails with IndexRangeError whenever tableOffset + count
exceeds the table's length" does not hold unconditionally. -/
theorem ootAddSkinVertexData_bounds_counterexample :
    (0 + 5 > ([] : List (Option SkinF3DVert)).length)
    ∧ (ootAddSkinVertexData wCtxC3 5 0 "Segment8VtxData" 0).2
        = some (.bufferOverflow 4 0 5)
    ∧ (ootAddSkinVertexData wCtxC3 5 0 "Segment8VtxData" 0).2
        ≠ some (.indexRange "Segment8VtxData" 0 0 5) := by
  refine ⟨by decide, rfl, ?_⟩
  intro hc
  have h2 : some (SkinError.bufferOverflow 4 0 5)
      = some (SkinError.indexRange "Segment8VtxData" 0 0 5) :=
    (rfl : (ootAddSkinVertexData wCtxC3 5 0 "Segment8VtxData" 0).2
      = some (.bufferOverflow 4 0 5)).symm.trans hc
  cases h2

/-- Witness for the amended C3: a window of count 5 at start 0 into the
four-slot buffer overflows and leaves the context unchanged; a window of
count 2 at start 0 fits the buffer but overruns the empty table and
fails with the index-range error, context unchanged. -/
theorem ootAddSkinVertexData_bounds_witness :
    ootAddSkinVertexData wCtxC3 5 0 "Segment8VtxData" 0
      = (wCtxC3, some (.bufferOverflow 4 0 5))
    ∧ ootAddSkinVertexData wCtxC3 2 0 "Segment8VtxData" 0
      = (wCtxC3, some (.indexRange "Segment8VtxData" 0 0 2)) := by
  constructor
  · exact (ootAddSkinVertexData_bounds wCtxC3 5 0 "Segment8VtxData" 0 [] rfl).1 (by decide)
  · exact (ootAddSkinVertexData_bounds wCtxC3 2 0 "Segment8VtxData" 0 [] rfl).2
      (by decide) (by decide)

/-- Buffer slots below the loop's current write position are never
touched by the copy loop. -/
theorem skinCopyLoop_get_lt (limbName0 : String) (vertexData : List (Option SkinF3DVert))
    (vertexDataOffset startIndex : Nat) :
    ∀ (n i : Nat) (buf : List (Option BufferVertex)) (j : Nat), j < startIndex + i →
      ((skinCopyLoop limbName0 vertexData vertexDataOffset startIndex i n buf).1)[j]?
        = buf[j]? := by
  intro n
  induction n with
  | zero =>
    intro i buf j hj
    rfl
  | succ m ih =>
    intro i buf j hj
    cases hslot : vertexData[vertexDataOffset + i]? with
    | none =>
      simp only [skinCopyLoop, hslot]
    | some slot =>
      cases slot with
      | none =>
        simp only [skinCopyLoop, hslot]
      | some vert =>
        by_cases hsel : vert.modif.unk_4 < vert.modif.limbTransformations.length
        · simp only [skinCopyLoop, hslot, if_pos hsel]
          rw [ih (i + 1) _ j (by omega)]
          exact List.getElem?_set_ne (by omega)
        · simp only [skinCopyLoop, hslot, if_neg hsel]

/-- On a successful copy, every window element was read from the table
and written to the destination wrapped with the fixed bone binding. -/
theorem skinCopyLoop_success (limbName0 : String) (vertexData : List (Option SkinF3DVert))
    (vertexDataOffset startIndex : Nat) :
    ∀ (n i : Nat) (buf : List (Option BufferVertex)),
      startIndex + i + n ≤ buf.length →
      (skinCopyLoop limbName0 vertexData vertexDataOffset startIndex i n buf).2 = none →
      ∀ k : Nat, k < n → ∃ vert : SkinF3DVert,
        vertexData[vertexDataOffset + (i + k)]? = some (some vert) ∧
        ((skinCopyLoop limbName0 vertexData vertexDataOffset startIndex i n buf).1)[startIndex + (i + k)]?
          = some (some ⟨vert, limbName0, 0⟩) := by
  intro n
  induction n with
  | zero =>
    intro i buf _ _ k hk
    exact absurd hk (by omega)
  | succ m ih =>
    intro i buf hlen hok k hk
    cases hslot : vertexData[vertexDataOffset + i]? with
    | none =>
      simp only [skinCopyLoop, hslot] at hok
      exact Option.noConfusion hok
    | some slot =>
      cases slot with
      | none =>
        simp only [skinCopyLoop, hslot] at hok
        exact Option.noConfusion hok
      | some vert =>
        by_cases hsel : vert.modif.unk_4 < vert.modif.limbTransformations.length
        · have hstep : skinCopyLoop limbName0 vertexData vertexDataOffset startIndex i
              (m + 1) buf
              = skinCopyLoop limbName0 vertexData vertexDataOffset startIndex (i + 1) m
                  (buf.set (startIndex + i) (some ⟨vert, limbName0, 0⟩)) := by
            simp only [skinCopyLoop, hslot, if_pos hsel]
          rw [hstep] at hok ⊢
          rcases Nat.eq_zero_or_pos k with rfl | hkpos
          · refine ⟨vert, by simpa using hslot, ?_⟩
            have hj : startIndex + (i + 0) < startIndex + (i + 1) := by omega
            rw [skinCopyLoop_get_lt limbName0 vertexData vertexDataOffset startIndex m
              (i + 1) _ (startIndex + (i + 0)) hj]
            have hlt : startIndex + i < buf.length := by omega
            simp only [Nat.add_zero]
            rw [List.getElem?_set_self hlt]
          · have hlen2 : startIndex + (i + 1) + m
                ≤ (buf.set (startIndex + i) (some ⟨vert, limbName0, 0⟩)).length := by
              rw [List.length_set]
              omega
            obtain ⟨vert2, hv2, hbuf2⟩ := ih (i + 1) _ hlen2 hok (k - 1) (by omega)
            refine ⟨vert2, ?_, ?_⟩
            · have he : vertexDataOffset + (i + 1 + (k - 1)) = vertexDataOffset + (i + k) := by
                omega
              rwa [he] at hv2
            · have he : startIndex + (i + 1 + (k - 1)) = startIndex + (i + k) := by
                omega
              rwa [he] at hbuf2
        · simp only [skinCopyLoop, hslot, if_neg hsel] at hok
          exact Option.noConfusion hok

/-- C6: on every successful load, each of the `count` copied vertices is
placed into the destination buffer wrapped with a bone-name binding to
bone index/name 0 — `getLimbName(0)` and the integer `0`, a fixed
convention — regardless of the vertex's own bone-weight list or its
modification's transform records. -/
theorem ootAddSkinVertexData_success_binding (f3dContext : OOTF3DContext)
    (num start : Nat) (vertexDataName : String) (vertexDataOffset : Nat)
    (vertexData : List (Option SkinF3DVert))
    (hlook : f3dContext.vertexData.lookup vertexDataName = some vertexData)
    (hok : (ootAddSkinVertexData f3dContext num start vertexDataName vertexDataOffset).2
      = none) :
    ∀ i : Nat, i < num → ∃ vert : SkinF3DVert,
      vertexData[vertexDataOffset + i]? = some (some vert) ∧
      ((ootAddSkinVertexData f3dContext num start vertexDataName vertexDataOffset).1.vertexBuffer)[start + i]?
        = some (some ⟨vert, f3dContext.getLimbName 0, 0⟩) := by
  by_cases hb1 : start + num > f3dContext.vertexBuffer.length
  · exfalso
    have hres : (ootAddSkinVertexData f3dContext num start vertexDataName vertexDataOffset).2
        = some (.bufferOverflow f3dContext.vertexBuffer.length start (start + num)) := by
      simp only [ootAddSkinVertexData, hlook]
      rw [if_pos hb1]
    rw [hres] at hok
    exact Option.noConfusion hok
  by_cases hb2 : vertexDataOffset + num > vertexData.length
  · exfalso
    have hres : (ootAddSkinVertexData f3dContext num start vertexDataName vertexDataOffset).2
        = some (.indexRange vertexDataName vertexData.length vertexDataOffset
            (vertexDataOffset + num)) := by
      simp only [ootAddSkinVertexData, hlook]
      rw [if_neg hb1, if_pos hb2]
    rw [hres] at hok
    exact Option.noConfusion hok
  have hunfold : ootAddSkinVertexData f3dContext num start vertexDataName vertexDataOffset
      = ({ f3dContext with
            vertexBuffer := (skinCopyLoop (f3dContext.getLimbName 0) vertexData
              vertexDataOffset start 0 num f3dContext.vertexBuffer).1 },
         (skinCopyLoop (f3dContext.getLimbName 0) vertexData vertexDataOffset start 0 num
            f3dContext.vertexBuffer).2) := by
    simp only [ootAddSkinVertexData, hlook]
    rw [if_neg hb1, if_neg hb2]
  intro i hi
  have hok2 : (skinCopyLoop (f3dContext.getLimbName 0) vertexData vertexDataOffset start 0
      num f3dContext.vertexBuffer).2 = none := by
    rw [hunfold] at hok
    exact hok
  obtain ⟨vert, hv, hb⟩ := skinCopyLoop_success (f3dContext.getLimbName 0) vertexData
    vertexDataOffset start num 0 f3dContext.vertexBuffer (by omega) hok2 i hi
  refine ⟨vert, by simpa using hv, ?_⟩
  rw [hunfold]
  simpa using hb

/-- Witness for C6: loading one vertex from the cached one-slot table
succeeds and binds it to `getLimbName(0) = "limbA"` with bone index 0,
even though the vertex's own weight list is empty. -/
theorem ootAddSkinVertexData_success_binding_witness :
    ∃ vert : SkinF3DVert,
      wTablePlain[0]? = some (some vert) ∧
      ((ootAddSkinVertexData wCtxC6 1 0 "tbl" 0).1.vertexBuffer)[0]?
        = some (some ⟨vert, "limbA", 0⟩) := by
  have h := ootAddSkinVertexData_success_binding wCtxC6 1 0 "tbl" 0 wTablePlain rfl rfl 0
    (by decide)
  simpa using h

/-- If the first `j` window slots are defined with valid selectors and
slot `j` is an unstamped empty slot, the copy loop stops with the
attribute error (from `.modif` on `None`). -/
theorem skinCopyLoop_stops_attr (limbName0 : String) (vertexData : List (Option SkinF3DVert))
    (vertexDataOffset startIndex : Nat) :
    ∀ (j n i : Nat) (buf : List (Option BufferVertex)), j < n →
      (∀ k : Nat, k < j → ∃ v : SkinF3DVert,
        vertexData[vertexDataOffset + (i + k)]? = some (some v) ∧
        v.modif.unk_4 < v.modif.limbTransformations.length) →
      vertexData[vertexDataOffset + (i + j)]? = some none →
      (skinCopyLoop limbName0 vertexData vertexDataOffset startIndex i n buf).2
        = some .attributeError := by
  intro j
  induction j with
  | zero =>
    intro n i buf hn _ hj
    cases n with
    | zero => omega
    | succ m =>
      have hslot : vertexData[vertexDataOffset + i]? = some none := by
        simpa using hj
      simp only [skinCopyLoop, hslot]
  | succ j ih =>
    intro n i buf hn hprev hj
    cases n with
    | zero => omega
    | succ m =>
      obtain ⟨v0, hslot0, hsel0⟩ := hprev 0 (by omega)
      have hslot : vertexData[vertexDataOffset + i]? = some (some v0) := by
        simpa using hslot0
      simp only [skinCopyLoop, hslot, if_pos hsel0]
      refine ih m (i + 1) _ (by omega) ?_ ?_
      · intro k hk
        obtain ⟨v, hv, hs⟩ := hprev (k + 1) (by omega)
        refine ⟨v, ?_, hs⟩
        have he : vertexDataOffset + (i + (k + 1)) = vertexDataOffset + (i + 1 + k) := by
          omega
        rwa [he] at hv
      · have he : vertexDataOffset + (i + (j + 1)) = vertexDataOffset + (i + 1 + j) := by
          omega
        rwa [he] at hj

/-- If the first `j` window slots are defined with valid selectors and
slot `j` holds a vertex whose modification's selector is out of range of
its transform list, the copy loop stops with the index error raised by
`limbTransformations[unk_4]` even though that value is unused. -/
theorem skinCopyLoop_stops_selector (limbName0 : String)
    (vertexData : List (Option SkinF3DVert)) (vertexDataOffset startIndex : Nat) :
    ∀ (j n i : Nat) (buf : List (Option BufferVertex)), j < n →
      (∀ k : Nat, k < j → ∃ v : SkinF3DVert,
        vertexData[vertexDataOffset + (i + k)]? = some (some v) ∧
        v.modif.unk_4 < v.modif.limbTransformations.length) →
      ∀ v0 : SkinF3DVert, vertexData[vertexDataOffset + (i + j)]? = some (some v0) →
      v0.modif.limbTransformations.length ≤ v0.modif.unk_4 →
      (skinCopyLoop limbName0 vertexData vertexDataOffset startIndex i n buf).2
        = some .indexError := by
  intro j
  induction j with
  | zero =>
    intro n i buf hn _ v0 hj hbad
    cases n with
    | zero => omega
    | succ m =>
      have hslot : vertexData[vertexDataOffset + i]? = some (some v0) := by
        simpa using hj
      simp only [skinCopyLoop, hslot, if_neg (by omega : ¬ v0.modif.unk_4 < v0.modif.limbTransformations.length)]
  | succ j ih =>
    intro n i buf hn hprev v0 hj hbad
    cases n with
    | zero => omega
    | succ m =>
      obtain ⟨v1, hslot1, hsel1⟩ := hprev 0 (by omega)
      have hslot : vertexData[vertexDataOffset + i]? = some (some v1) := by
        simpa using hslot1
      simp only [skinCopyLoop, hslot, if_pos hsel1]
      refine ih m (i + 1) _ (by omega) ?_ v0 ?_ hbad
      · intro k hk
        obtain ⟨v, hv, hs⟩ := hprev (k + 1) (by omega)
        refine ⟨v, ?_, hs⟩
        have he : vertexDataOffset + (i + (k + 1)) = vertexDataOffset + (i + 1 + k) := by
          omega
        rwa [he] at hv
      · have he : vertexDataOffset + (i + (j + 1)) = vertexDataOffset + (i + 1 + j) := by
          omega
        rwa [he] at hj

/-- Whatever happens later in the copy loop, the first `j` window slots
(defined, valid selectors) have already been written into the
destination, wrapped with the fixed bone binding. -/
theorem skinCopyLoop_writes_prefix (limbName0 : String)
    (vertexData : List (Option SkinF3DVert)) (vertexDataOffset startIndex : Nat) :
    ∀ (j n i : Nat) (buf : List (Option BufferVertex)), j ≤ n →
      (∀ k : Nat, k < j → ∃ v : SkinF3DVert,
        vertexData[vertexDataOffset + (i + k)]? = some (some v) ∧
        v.modif.unk_4 < v.modif.limbTransformations.length) →
      startIndex + i + n ≤ buf.length →
      ∀ k : Nat, k < j → ∃ v : SkinF3DVert,
        vertexData[vertexDataOffset + (i + k)]? = some (some v) ∧
        ((skinCopyLoop limbName0 vertexData vertexDataOffset startIndex i n buf).1)[startIndex + (i + k)]?
          = some (some ⟨v, limbName0, 0⟩) := by
  intro j
  induction j with
  | zero =>
    intro n i buf _ _ _ k hk
    exact absurd hk (by omega)
  | succ j ih =>
    intro n i buf hn hprev hlen k hk
    cases n with
    | zero => omega
    | succ m =>
      obtain ⟨v0, hslot0, hsel0⟩ := hprev 0 (by omega)
      have hslot : vertexData[vertexDataOffset + i]? = some (some v0) := by
        simpa using hslot0
      have hstep : skinCopyLoop limbName0 vertexData vertexDataOffset startIndex i
          (m + 1) buf
          = skinCopyLoop limbName0 vertexData vertexDataOffset startIndex (i + 1) m
              (buf.set (startIndex + i) (some ⟨v0, limbName0, 0⟩)) := by
        simp only [skinCopyLoop, hslot, if_pos hsel0]
      rw [hstep]
      rcases Nat.eq_zero_or_pos k with rfl | hkpos
      · refine ⟨v0, by simpa using hslot, ?_⟩
        have hj : startIndex + (i + 0) < startIndex + (i + 1) := by omega
        rw [skinCopyLoop_get_lt limbName0 vertexData vertexDataOffset startIndex m
          (i + 1) _ (startIndex + (i + 0)) hj]
        have hlt : startIndex + i < buf.length := by omega
        simp only [Nat.add_zero]
        rw [List.getElem?_set_self hlt]
      · have hlen2 : startIndex + (i + 1) + m
            ≤ (buf.set (startIndex + i) (some ⟨v0, limbName0, 0⟩)).length := by
          rw [List.length_set]
          omega
        have hprev2 : ∀ k2 : Nat, k2 < j → ∃ v : SkinF3DVert,
            vertexData[vertexDataOffset + (i + 1 + k2)]? = some (some v) ∧
            v.modif.unk_4 < v.modif.limbTransformations.length := by
          intro k2 hk2
          obtain ⟨v, hv, hs⟩ := hprev (k2 + 1) (by omega)
          refine ⟨v, ?_, hs⟩
          have he : vertexDataOffset + (i + (k2 + 1)) = vertexDataOffset + (i + 1 + k2) := by
            omega
          rwa [he] at hv
        obtain ⟨v2, hv2, hbuf2⟩ := ih m (i + 1) _ (by omega) hprev2 hlen2 (k - 1) (by omega)
        refine ⟨v2, ?_, ?_⟩
        · have he : vertexDataOffset + (i + 1 + (k - 1)) = vertexDataOffset + (i + k) := by
            omega
          rwa [he] at hv2
        · have he : startIndex + (i + 1 + (k - 1)) = startIndex + (i + k) := by
            omega
          rwa [he] at hbuf2

/-- C10: when a load window passes both bounds checks but the window
contains an unstamped empty table slot at position `j` (all earlier
window slots defined with valid selectors), the per-element copy loop
raises the attribute error upon reaching that slot, after the preceding
in-window slots have already been written into the destination buffer —
a partial write; the same mid-copy failure, as an index error, occurs
when the window's `j`-th vertex's modification has a selector out of
range of its transform list, because the loop dereferences
`limbTransformations[unk_4]` for every copied vertex even though the
value is unused. -/
theorem ootAddSkinVertexData_partial_write (f3dContext : OOTF3DContext)
    (num start : Nat) (vertexDataName : String) (vertexDataOffset : Nat)
    (vertexData : List (Option SkinF3DVert)) (j : Nat)
    (hlook : f3dContext.vertexData.lookup vertexDataName = some vertexData)
    (hb1 : start + num ≤ f3dContext.vertexBuffer.length)
    (hb2 : vertexDataOffset + num ≤ vertexData.length)
    (hj : j < num)
    (hprev : ∀ k : Nat, k < j → ∃ v : SkinF3DVert,
      vertexData[vertexDataOffset + k]? = some (some v) ∧
      v.modif.unk_4 < v.modif.limbTransformations.length) :
    (vertexData[vertexDataOffset + j]? = some none →
      (ootAddSkinVertexData f3dContext num start vertexDataName vertexDataOffset).2
        = some .attributeError
      ∧ ∀ k : Nat, k < j → ∃ v : SkinF3DVert,
          vertexData[vertexDataOffset + k]? = some (some v) ∧
          ((ootAddSkinVertexData f3dContext num start vertexDataName vertexDataOffset).1.vertexBuffer)[start + k]?
            = some (some ⟨v, f3dContext.getLimbName 0, 0⟩))
    ∧ (∀ v0 : SkinF3DVert, vertexData[vertexDataOffset + j]? = some (some v0) →
        v0.modif.limbTransformations.length ≤ v0.modif.unk_4 →
      (ootAddSkinVertexData f3dContext num start vertexDataName vertexDataOffset).2
        = some .indexError
      ∧ ∀ k : Nat, k < j → ∃ v : SkinF3DVert,
          vertexData[vertexDataOffset + k]? = some (some v) ∧
          ((ootAddSkinVertexData f3dContext num start vertexDataName vertexDataOffset).1.vertexBuffer)[start + k]?
            = some (some ⟨v, f3dContext.getLimbName 0, 0⟩)) := by
  have hunfold : ootAddSkinVertexData f3dContext num start vertexDataName vertexDataOffset
      = ({ f3dContext with
            vertexBuffer := (skinCopyLoop (f3dContext.getLimbName 0) vertexData
              vertexDataOffset start 0 num f3dContext.vertexBuffer).1 },
         (skinCopyLoop (f3dContext.getLimbName 0) vertexData vertexDataOffset start 0 num
            f3dContext.vertexBuffer).2) := by
    simp only [ootAddSkinVertexData, hlook]
    rw [if_neg (by omega), if_neg (by omega)]
  have hprev0 : ∀ k : Nat, k < j → ∃ v : SkinF3DVert,
      vertexData[vertexDataOffset + (0 + k)]? = some (some v) ∧
      v.modif.unk_4 < v.modif.limbTransformations.length := by
    intro k hk
    simpa using hprev k hk
  have hwrites : ∀ k : Nat, k < j → ∃ v : SkinF3DVert,
      vertexData[vertexDataOffset + k]? = some (some v) ∧
      ((ootAddSkinVertexData f3dContext num start vertexDataName vertexDataOffset).1.vertexBuffer)[start + k]?
        = some (some ⟨v, f3dContext.getLimbName 0, 0⟩) := by
    intro k hk
    obtain ⟨v, hv, hb⟩ := skinCopyLoop_writes_prefix (f3dContext.getLimbName 0) vertexData
      vertexDataOffset start j num 0 f3dContext.vertexBuffer (by omega) hprev0
      (by omega) k hk
    refine ⟨v, by simpa using hv, ?_⟩
    rw [hunfold]
    simpa using hb
  constructor
  · intro hslot
    refine ⟨?_, hwrites⟩
    rw [hunfold]
    exact skinCopyLoop_stops_attr (f3dContext.getLimbName 0) vertexData vertexDataOffset
      start j num 0 f3dContext.vertexBuffer hj hprev0 (by simpa using hslot)
  · intro v0 hslot hbad
    refine ⟨?_, hwrites⟩
    rw [hunfold]
    exact skinCopyLoop_stops_selector (f3dContext.getLimbName 0) vertexData vertexDataOffset
      start j num 0 f3dContext.vertexBuffer hj hprev0 v0 (by simpa using hslot) hbad

/-- Witness for C10 on the four-slot table: window (offset 0, count 2)
stops at the empty slot 1 with the attribute error after writing slot 0;
window (offset 2, count 2) stops at the bad-selector vertex in slot 3
with the index error after writing slot 2's vertex into the buffer. -/
theorem ootAddSkinVertexData_partial_write_witness :
    (ootAddSkinVertexData wCtxC10 2 0 "tbl" 0).2 = some .attributeError
    ∧ (∃ v : SkinF3DVert, wTableC10[0]? = some (some v) ∧
        ((ootAddSkinVertexData wCtxC10 2 0 "tbl" 0).1.vertexBuffer)[0]?
          = some (some ⟨v, "limbA", 0⟩))
    ∧ (ootAddSkinVertexData wCtxC10 2 0 "tbl" 2).2 = some .indexError
    ∧ (∃ v : SkinF3DVert, wTableC10[2]? = some (some v) ∧
        ((ootAddSkinVertexData wCtxC10 2 0 "tbl" 2).1.vertexBuffer)[0]?
          = some (some ⟨v, "limbA", 0⟩)) := by
  have hprev1 : ∀ k : Nat, k < 1 → ∃ v : SkinF3DVert,
      wTableC10[0 + k]? = some (some v) ∧
      v.modif.unk_4 < v.modif.limbTransformations.length := by
    intro k hk
    have hk0 : k = 0 := by omega
    subst hk0
    exact ⟨wVertPlain, rfl, by decide⟩
  have hprev2 : ∀ k : Nat, k < 1 → ∃ v : SkinF3DVert,
      wTableC10[2 + k]? = some (some v) ∧
      v.modif.unk_4 < v.modif.limbTransformations.length := by
    intro k hk
    have hk0 : k = 0 := by omega
    subst hk0
    exact ⟨wVertPlain, rfl, by decide⟩
  have h1 := (ootAddSkinVertexData_partial_write wCtxC10 2 0 "tbl" 0 wTableC10 1 rfl
    (by decide) (by decide) (by decide) hprev1).1 rfl
  have h2 := (ootAddSkinVertexData_partial_write wCtxC10 2 0 "tbl" 2 wTableC10 1 rfl
    (by decide) (by decide) (by decide) hprev2).2 wVertBad rfl (by decide)
  refine ⟨h1.1, ?_, h2.1, ?_⟩
  · exact h1.2 0 (by omega)
  · exact h2.2 0 (by omega)

/-- The only error the bone matrix resolver raises is the
missing-bone-transform error naming the looked-up bone. -/
theorem ootRetrieveMatrixData_err_shape (f3dContext : OOTF3DContext) (limbIndex : Nat)
    (e : SkinError) (h : ootRetrieveMatrixData f3dContext limbIndex = .error e) :
    e = .missingBoneTransform (f3dContext.getLimbName limbIndex) := by
  unfold ootRetrieveMatrixData at h
  cases hl : f3dContext.matrixData.lookup (f3dContext.getLimbName limbIndex) with
  | none =>
    simp only [hl] at h
    cases h
    rfl
  | some blenderMatrix =>
    simp only [hl] at h
    exact Except.noConfusion h

/-- The only error the stamping loop raises is the index error. -/
theorem stampVertices_err_eq (vtxPoint : Vec3) (weightData : List VertexWeight)
    (modif : SkinLimbModif) :
    ∀ (svs : List SkinVertex) (table : List (Option SkinF3DVert)) (e : SkinError),
      stampVertices vtxPoint weightData modif svs table = .error e →
      e = .indexError := by
  intro svs
  induction svs with
  | nil =>
    intro table e h
    simp only [stampVertices] at h
    exact Except.noConfusion h
  | cons sv rest ih =>
    intro table e h
    simp only [stampVertices] at h
    by_cases hlt : sv.index < table.length
    · rw [if_pos hlt] at h
      exact ih _ e h
    · rw [if_neg hlt] at h
      cases h
      rfl

/-- The single-transform anchor branch never raises the alignment
error. -/
theorem anchorSingle_err_ne_align (f3dContext : OOTF3DContext) (modif : SkinLimbModif)
    (e : SkinError) (h : anchorSingle f3dContext modif = .error e) :
    e ≠ .alignmentError := by
  unfold anchorSingle at h
  cases hget : modif.limbTransformations[modif.unk_4]? with
  | none =>
    simp only [hget] at h
    cases h
    simp
  | some transformEntry =>
    simp only [hget] at h
    cases hr : ootRetrieveMatrixData f3dContext transformEntry.limbIndex with
    | error e2 =>
      simp only [hr] at h
      cases h
      rw [ootRetrieveMatrixData_err_shape f3dContext transformEntry.limbIndex e hr]
      simp
    | ok matrix =>
      simp only [hr] at h
      exact Except.noConfusion h

/-- The summation anchor loop never raises the alignment error. -/
theorem anchorSumLoop_err_ne_align (f3dContext : OOTF3DContext) :
    ∀ (list : List SkinTransformation) (acc : Vec3) (e : SkinError),
      anchorSumLoop f3dContext list acc = .error e →
      e ≠ .alignmentError := by
  intro list
  induction list with
  | nil =>
    intro acc e h
    exact Except.noConfusion h
  | cons transformEntry rest ih =>
    intro acc e h
    simp only [anchorSumLoop] at h
    cases hr : ootRetrieveMatrixData f3dContext transformEntry.limbIndex with
    | error e2 =>
      simp only [hr] at h
      cases h
      rw [ootRetrieveMatrixData_err_shape f3dContext transformEntry.limbIndex e hr]
      simp
    | ok matrix =>
      simp only [hr] at h
      exact ih _ e h

/-- The anchor computation never raises the alignment error. -/
theorem computeVtxPoint_err_ne_align (f3dContext : OOTF3DContext) (modif : SkinLimbModif)
    (e : SkinError) (h : computeVtxPoint f3dContext modif = .error e) :
    e ≠ .alignmentError := by
  unfold computeVtxPoint at h
  by_cases h1 : modif.transformCount = 1
  · rw [if_pos h1] at h
    exact anchorSingle_err_ne_align f3dContext modif e h
  · rw [if_neg h1, if_neg Bool.false_ne_true] at h
    exact anchorSumLoop_err_ne_align f3dContext _ _ e h

/-- Processing one modification never raises the alignment error. -/
theorem processModif_err_ne_align (f3dContext : OOTF3DContext)
    (vertexData : List (Option SkinF3DVert)) (modif : SkinLimbModif) (e : SkinError)
    (h : processModif f3dContext vertexData modif = .error e) :
    e ≠ .alignmentError := by
  unfold processModif at h
  cases ha : computeVtxPoint f3dContext modif with
  | error e2 =>
    simp only [ha] at h
    cases h
    exact computeVtxPoint_err_ne_align f3dContext modif e ha
  | ok vtxPoint =>
    simp only [ha] at h
    rw [stampVertices_err_eq _ _ _ _ _ e h]
    simp

/-- The synthesis loop never raises the alignment error. -/
theorem synthesizeLoop_err_ne_align (f3dContext : OOTF3DContext) :
    ∀ (mods : List SkinLimbModif) (vertexData : List (Option SkinF3DVert)) (e : SkinError),
      synthesizeLoop f3dContext mods vertexData = .error e →
      e ≠ .alignmentError := by
  intro mods
  induction mods with
  | nil =>
    intro vertexData e h
    exact Except.noConfusion h
  | cons modif rest ih =>
    intro vertexData e h
    simp only [synthesizeLoop] at h
    cases hp : processModif f3dContext vertexData modif with
    | error e2 =>
      simp only [hp] at h
      cases h
      exact processModif_err_ne_align f3dContext vertexData modif e hp
    | ok vertexData2 =>
      simp only [hp] at h
      exact ih _ e h

/-- The copy loop never raises the alignment error. -/
theorem skinCopyLoop_err_ne_align (limbName0 : String)
    (vertexData : List (Option SkinF3DVert)) (vertexDataOffset startIndex : Nat) :
    ∀ (n i : Nat) (buf : List (Option BufferVertex)) (e : SkinError),
      (skinCopyLoop limbName0 vertexData vertexDataOffset startIndex i n buf).2 = some e →
      e ≠ .alignmentError := by
  intro n
  induction n with
  | zero =>
    intro i buf e h
    exact Option.noConfusion h
  | succ m ih =>
    intro i buf e h
    cases hslot : vertexData[vertexDataOffset + i]? with
    | none =>
      simp only [skinCopyLoop, hslot] at h
      cases h
      simp
    | some slot =>
      cases slot with
      | none =>
        simp only [skinCopyLoop, hslot] at h
        cases h
        simp
      | some vert =>
        by_cases hsel : vert.modif.unk_4 < vert.modif.limbTransformations.length
        · simp only [skinCopyLoop, hslot, if_pos hsel] at h
          exact ih (i + 1) _ e h
        · simp only [skinCopyLoop, hslot, if_neg hsel] at h
          cases h
          simp

/-- The segment buffer loader never raises the alignment error. -/
theorem ootAddSkinVertexData_err_ne_align (f3dContext : OOTF3DContext)
    (num start : Nat) (vertexDataName : String) (vertexDataOffset : Nat) (e : SkinError)
    (h : (ootAddSkinVertexData f3dContext num start vertexDataName vertexDataOffset).2
      = some e) :
    e ≠ .alignmentError := by
  unfold ootAddSkinVertexData at h
  cases hl : f3dContext.vertexData.lookup vertexDataName with
  | none =>
    simp only [hl] at h
    cases h
    simp
  | some vertexData =>
    simp only [hl] at h
    by_cases hb1 : start + num > f3dContext.vertexBuffer.length
    · rw [if_pos hb1] at h
      have h2 : some (SkinError.bufferOverflow f3dContext.vertexBuffer.length start
          (start + num)) = some e := h
      cases h2
      simp
    · rw [if_neg hb1] at h
      by_cases hb2 : vertexDataOffset + num > vertexData.length
      · rw [if_pos hb2] at h
        have h2 : some (SkinError.indexRange vertexDataName vertexData.length
            vertexDataOffset (vertexDataOffset + num)) = some e := h
        cases h2
        simp
      · rw [if_neg hb2] at h
        exact skinCopyLoop_err_ne_align (f3dContext.getLimbName 0) vertexData
          vertexDataOffset start num 0 f3dContext.vertexBuffer e h

/-- The only error the post-store debug loop raises is the attribute
error. -/
theorem ootVertexDataPrintLoop_err_eq :
    ∀ (vertexData : List (Option SkinF3DVert)) (e : SkinError),
      ootVertexDataPrintLoop vertexData = some e → e = .attributeError := by
  intro vertexData
  induction vertexData with
  | nil =>
    intro e h
    exact Option.noConfusion h
  | cons slot rest ih =>
    intro e h
    cases slot with
    | none =>
      simp only [ootVertexDataPrintLoop] at h
      exact (Option.some.inj h).symm
    | some v =>
      simp only [ootVertexDataPrintLoop] at h
      exact ih e h

/-- The skin-limb parse-and-load path never raises the alignment
error. -/
theorem ootParseAnimatedLimbAt_err_ne_align (f3dContext : OOTF3DContext)
    (pointer num start vertexDataOffset : Nat) (e : SkinError)
    (h : (ootParseAnimatedLimbAt f3dContext pointer num start vertexDataOffset).2
      = some e) :
    e ≠ .alignmentError := by
  unfold ootParseAnimatedLimbAt at h
  by_cases hc : (f3dContext.vertexData.lookup (segmentVtxDataName pointer)).isSome
  · rw [if_pos hc] at h
    exact ootAddSkinVertexData_err_ne_align f3dContext num start _ vertexDataOffset e h
  · rw [if_neg hc] at h
    cases hs : synthesizeVertexData f3dContext f3dContext.animSkinLimbData with
    | error e2 =>
      simp only [hs] at h
      have h2 : some e2 = some e := h
      cases h2
      exact synthesizeLoop_err_ne_align f3dContext _ _ e hs
    | ok vertexData =>
      simp only [hs] at h
      cases hpl : ootVertexDataPrintLoop vertexData with
      | some e2 =>
        simp only [hpl] at h
        have h2 : some e2 = some e := h
        cases h2
        rw [ootVertexDataPrintLoop_err_eq vertexData e hpl]
        simp
      | none =>
        simp only [hpl] at h
        exact ootAddSkinVertexData_err_ne_align _ num start _ vertexDataOffset e h

/-- C7: for every numeric pseudo-address on the skin-limb vertex-data
path, the entry point fails with the alignment error exactly when the
low 24 bits of the address are not a multiple of the per-vertex stride
0x10; when aligned, the computation is the parse-and-load path invoked
with a table-relative offset equal to those low 24 bits divided by 0x10,
and that path can never produce the alignment error. -/
theorem processVertexDataName_alignment (f3dContext : OOTF3DContext)
    (pointer num start : Nat) (hskin : f3dContext.isAnimSkinLimb = true) :
    ((pointer &&& 0xFFFFFF) % 0x10 ≠ 0 →
      processVertexDataName f3dContext pointer num start
        = (f3dContext, some .alignmentError))
    ∧ ((pointer &&& 0xFFFFFF) % 0x10 = 0 →
        (processVertexDataName f3dContext pointer num start).2 ≠ some .alignmentError
        ∧ processVertexDataName f3dContext pointer num start
            = ootParseAnimatedLimbAt f3dContext pointer num start
                ((pointer &&& 0xFFFFFF) / 0x10)) := by
  have hskin2 : (if f3dContext.isAnimSkinLimb then
      (if (pointer &&& 0xFFFFFF) % 0x10 ≠ 0 then
        (f3dContext, some SkinError.alignmentError)
      else ootParseAnimatedLimb f3dContext pointer num start)
    else (f3dContext, some SkinError.segmentError))
      = (if (pointer &&& 0xFFFFFF) % 0x10 ≠ 0 then
        (f3dContext, some SkinError.alignmentError)
      else ootParseAnimatedLimb f3dContext pointer num start) := by
    rw [hskin]
    simp
  constructor
  · intro hmis
    unfold processVertexDataName
    rw [hskin2, if_pos hmis]
  · intro hal
    have hpath : processVertexDataName f3dContext pointer num start
        = ootParseAnimatedLimbAt f3dContext pointer num start
            ((pointer &&& 0xFFFFFF) / 0x10) := by
      unfold processVertexDataName
      rw [hskin2, if_neg (by omega)]
      rfl
    refine ⟨?_, hpath⟩
    rw [hpath]
    intro hc
    exact absurd rfl
      (ootParseAnimatedLimbAt_err_ne_align f3dContext pointer num start _ _ hc)

/-- Witness for C7: pointer 0x08000008 (low 24 bits 8, not a multiple of
0x10) fails with the alignment error; pointer 0x08000010 is aligned and
runs the parse-and-load path with table offset 1. -/
theorem processVertexDataName_alignment_witness :
    processVertexDataName wCtxC6 0x08000008 1 0 = (wCtxC6, some .alignmentError)
    ∧ processVertexDataName wCtxC6 0x08000010 1 0
        = ootParseAnimatedLimbAt wCtxC6 0x08000010 1 0 1 := by
  constructor
  · exact (processVertexDataName_alignment wCtxC6 0x08000008 1 0 rfl).1 (by decide)
  · exact ((processVertexDataName_alignment wCtxC6 0x08000010 1 0 rfl).2 (by decide)).2

/-- The segment buffer loader never touches the vertex-table cache. -/
theorem ootAddSkinVertexData_preserves_vertexData (f3dContext : OOTF3DContext)
    (num start : Nat) (vertexDataName : String) (vertexDataOffset : Nat) :
    (ootAddSkinVertexData f3dContext num start vertexDataName vertexDataOffset).1.vertexData
      = f3dContext.vertexData := by
  unfold ootAddSkinVertexData
  cases hl : f3dContext.vertexData.lookup vertexDataName with
  | none => rfl
  | some vertexData =>
    by_cases hb1 : start + num > f3dContext.vertexBuffer.length
    · simp only [hl]
      rw [if_pos hb1]
    · by_cases hb2 : vertexDataOffset + num > vertexData.length
      · simp only [hl]
        rw [if_neg hb1, if_pos hb2]
      · simp only [hl]
        rw [if_neg hb1, if_neg hb2]

/-- C8: synthesizing the same segment-table name twice performs the
parse/synthesis work only once. The first (cache-missing) call stores
the synthesized table under the segment-table name — then either runs
the loader on the extended cache (when the post-store debug loop of
lines 1105-1106 passes, i.e. the table has no unstamped slot) or stops
with that loop's error, the table still stored. Every call on a context
whose cache already holds the name is exactly the loader: no synthesis
runs, the cache is unchanged, and the identical cached table is
returned by the lookup. -/
theorem ootParseAnimatedLimb_memoization (f3dContext : OOTF3DContext)
    (pointer num start : Nat) (table : List (Option SkinF3DVert))
    (hmiss : f3dContext.vertexData.lookup (segmentVtxDataName pointer) = none)
    (hsynth : synthesizeVertexData f3dContext f3dContext.animSkinLimbData = .ok table) :
    ((ootParseAnimatedLimb f3dContext pointer num start).1.vertexData.lookup
        (segmentVtxDataName pointer) = some table)
    ∧ (ootVertexDataPrintLoop table = none →
        ootParseAnimatedLimb f3dContext pointer num start
          = ootAddSkinVertexData
              { f3dContext with
                  vertexData := (segmentVtxDataName pointer, table) :: f3dContext.vertexData }
              num start (segmentVtxDataName pointer) ((pointer &&& 0xFFFFFF) / 0x10))
    ∧ (∀ e : SkinError, ootVertexDataPrintLoop table = some e →
        ootParseAnimatedLimb f3dContext pointer num start
          = ({ f3dContext with
                vertexData := (segmentVtxDataName pointer, table) :: f3dContext.vertexData },
             some e))
    ∧ (∀ (ctx2 : OOTF3DContext) (t2 : List (Option SkinF3DVert)),
        ctx2.vertexData.lookup (segmentVtxDataName pointer) = some t2 →
        ootParseAnimatedLimb ctx2 pointer num start
            = ootAddSkinVertexData ctx2 num start (segmentVtxDataName pointer)
                ((pointer &&& 0xFFFFFF) / 0x10)
        ∧ (ootParseAnimatedLimb ctx2 pointer num start).1.vertexData = ctx2.vertexData
        ∧ (ootParseAnimatedLimb ctx2 pointer num start).1.vertexData.lookup
            (segmentVtxDataName pointer) = some t2) := by
  have hstep : ootParseAnimatedLimb f3dContext pointer num start
      = (match ootVertexDataPrintLoop table with
         | some e =>
            ({ f3dContext with
                vertexData := (segmentVtxDataName pointer, table) :: f3dContext.vertexData },
             some e)
         | none =>
            ootAddSkinVertexData
              { f3dContext with
                  vertexData := (segmentVtxDataName pointer, table) :: f3dContext.vertexData }
              num start (segmentVtxDataName pointer) ((pointer &&& 0xFFFFFF) / 0x10)) := by
    simp only [ootParseAnimatedLimb, ootParseAnimatedLimbAt, hmiss, Option.isSome_none,
      Bool.false_eq_true, if_false, hsynth]
  refine ⟨?_, ?_, ?_, ?_⟩
  · cases hpl : ootVertexDataPrintLoop table with
    | none =>
      rw [hstep]
      simp only [hpl]
      rw [ootAddSkinVertexData_preserves_vertexData]
      simp [List.lookup]
    | some e =>
      rw [hstep]
      simp only [hpl]
      simp [List.lookup]
  · intro hpl
    rw [hstep]
    simp only [hpl]
  · intro e hpl
    rw [hstep]
    simp only [hpl]
  · intro ctx2 t2 hl2
    have hpath2 : ootParseAnimatedLimb ctx2 pointer num start
        = ootAddSkinVertexData ctx2 num start (segmentVtxDataName pointer)
            ((pointer &&& 0xFFFFFF) / 0x10) := by
      simp only [ootParseAnimatedLimb, ootParseAnimatedLimbAt, hl2, Option.isSome_some,
        if_true]
    have hpres : (ootParseAnimatedLimb ctx2 pointer num start).1.vertexData
        = ctx2.vertexData := by
      rw [hpath2, ootAddSkinVertexData_preserves_vertexData]
    refine ⟨hpath2, hpres, ?_⟩
    rw [hpres]
    exact hl2

/-- Witness for C8: starting from an empty cache, the first call on
segment pointer 0x08000000 stores the synthesized two-slot table under
"Segment8VtxData" and (the table having no unstamped slot) proceeds as
the loader on the extended cache, and a second call on the resulting
context leaves the cache unchanged with the identical table still
stored. -/
theorem ootParseAnimatedLimb_memoization_witness :
    ((ootParseAnimatedLimb wCtx 0x08000000 2 0).1.vertexData.lookup "Segment8VtxData"
      = some wSynthTable)
    ∧ (ootParseAnimatedLimb wCtx 0x08000000 2 0
        = ootAddSkinVertexData
            { wCtx with vertexData := ("Segment8VtxData", wSynthTable) :: wCtx.vertexData }
            2 0 "Segment8VtxData" 0)
    ∧ (ootParseAnimatedLimb (ootParseAnimatedLimb wCtx 0x08000000 2 0).1 0x08000000 2 0).1.vertexData
        = (ootParseAnimatedLimb wCtx 0x08000000 2 0).1.vertexData := by
  have h := ootParseAnimatedLimb_memoization wCtx 0x08000000 2 0 wSynthTable rfl rfl
  refine ⟨h.1, h.2.1 rfl, ?_⟩
  exact ((h.2.2.2 (ootParseAnimatedLimb wCtx 0x08000000 2 0).1 wSynthTable h.1).2).1

/-- Stamping preserves the table length. -/
theorem stampVertices_length (vtxPoint : Vec3) (weightData : List VertexWeight)
    (modif : SkinLimbModif) :
    ∀ (svs : List SkinVertex) (table table2 : List (Option SkinF3DVert)),
      stampVertices vtxPoint weightData modif svs table = .ok table2 →
      table2.length = table.length := by
  intro svs
  induction svs with
  | nil =>
    intro table table2 h
    simp only [stampVertices] at h
    cases h
    rfl
  | cons sv rest ih =>
    intro table table2 h
    simp only [stampVertices] at h
    by_cases hlt : sv.index < table.length
    · rw [if_pos hlt] at h
      rw [ih _ _ h, List.length_set]
    · rw [if_neg hlt] at h
      exact Except.noConfusion h

/-- A successful stamping run implies every stamped record's index was
in range of the table. -/
theorem stampVertices_ok_indices (vtxPoint : Vec3) (weightData : List VertexWeight)
    (modif : SkinLimbModif) :
    ∀ (svs : List SkinVertex) (table table2 : List (Option SkinF3DVert)),
      stampVertices vtxPoint weightData modif svs table = .ok table2 →
      ∀ sv ∈ svs, sv.index < table.length := by
  intro svs
  induction svs with
  | nil =>
    intro table table2 _ sv hsv
    cases hsv
  | cons sv0 rest ih =>
    intro table table2 h sv hsv
    simp only [stampVertices] at h
    by_cases hlt : sv0.index < table.length
    · rw [if_pos hlt] at h
      rcases List.mem_cons.mp hsv with rfl | hsv2
      · exact hlt
      · have := ih _ _ h sv hsv2
        rwa [List.length_set] at this
    · rw [if_neg hlt] at h
      exact Except.noConfusion h

/-- The synthesis loop preserves the table length. -/
theorem synthesizeLoop_length (f3dContext : OOTF3DContext) :
    ∀ (mods : List SkinLimbModif) (init t : List (Option SkinF3DVert)),
      synthesizeLoop f3dContext mods init = .ok t →
      t.length = init.length := by
  intro mods
  induction mods with
  | nil =>
    intro init t h
    simp only [synthesizeLoop] at h
    cases h
    rfl
  | cons modif rest ih =>
    intro init t h
    simp only [synthesizeLoop] at h
    cases hp : processModif f3dContext init modif with
    | error e =>
      simp only [hp] at h
      exact Except.noConfusion h
    | ok mid =>
      simp only [hp] at h
      unfold processModif at hp
      cases ha : computeVtxPoint f3dContext modif with
      | error e =>
        simp only [ha] at hp
        exact Except.noConfusion hp
      | ok vtxPoint =>
        simp only [ha] at hp
        rw [ih _ _ h, stampVertices_length _ _ _ _ _ _ hp]

/-- A successful synthesis run implies every record's index of every
modification was in range of the initial table. -/
theorem synthesizeLoop_ok_indices (f3dContext : OOTF3DContext) :
    ∀ (mods : List SkinLimbModif) (init t : List (Option SkinF3DVert)),
      synthesizeLoop f3dContext mods init = .ok t →
      ∀ m ∈ mods, ∀ sv ∈ m.skinVertices, sv.index < init.length := by
  intro mods
  induction mods with
  | nil =>
    intro init t _ m hm
    cases hm
  | cons modif rest ih =>
    intro init t h m hm
    simp only [synthesizeLoop] at h
    cases hp : processModif f3dContext init modif with
    | error e =>
      simp only [hp] at h
      exact Except.noConfusion h
    | ok mid =>
      simp only [hp] at h
      have hplen : mid.length = init.length := by
        unfold processModif at hp
        cases ha : computeVtxPoint f3dContext modif with
        | error e =>
          simp only [ha] at hp
          exact Except.noConfusion hp
        | ok vtxPoint =>
          simp only [ha] at hp
          exact stampVertices_length _ _ _ _ _ _ hp
      rcases List.mem_cons.mp hm with rfl | hm2
      · intro sv hsv
        unfold processModif at hp
        cases ha : computeVtxPoint f3dContext m with
        | error e =>
          simp only [ha] at hp
          exact Except.noConfusion hp
        | ok vtxPoint =>
          simp only [ha] at hp
          exact stampVertices_ok_indices _ _ _ _ _ _ hp sv hsv
      · intro sv hsv
        have := ih _ _ h m hm2 sv hsv
        rwa [hplen] at this

/-- Last-write-wins characterization of one stamping run: a slot not
targeted by any record keeps its content, and a targeted slot ends with
the vertex built from the last record (in array order) whose index
equals that slot. -/
theorem stampVertices_last (vtxPoint : Vec3) (weightData : List VertexWeight)
    (modif : SkinLimbModif) :
    ∀ (svs : List SkinVertex) (table table2 : List (Option SkinF3DVert)),
      stampVertices vtxPoint weightData modif svs table = .ok table2 →
      ∀ j : Nat,
        ((svs.filter (fun sv => sv.index == j)).getLast? = none →
          table2[j]? = table[j]?)
        ∧ (∀ sv : SkinVertex,
            (svs.filter (fun sv => sv.index == j)).getLast? = some sv →
            table2[j]? = some (some (mkSkinF3DVert vtxPoint weightData modif sv))) := by
  intro svs
  induction svs with
  | nil =>
    intro table table2 h j
    simp only [stampVertices] at h
    cases h
    constructor
    · intro _
      rfl
    · intro sv hsv
      simp only [List.filter_nil, List.getLast?_nil] at hsv
      exact Option.noConfusion hsv
  | cons sv0 rest ih =>
    intro table table2 h j
    simp only [stampVertices] at h
    by_cases hlt : sv0.index < table.length
    · rw [if_pos hlt] at h
      have ihj := ih _ _ h j
      by_cases hj : sv0.index = j
      · subst hj
        constructor
        · intro hnone
          rw [List.filter_cons_of_pos (p := fun sv : SkinVertex => sv.index == sv0.index)
            (a := sv0) (by simp)] at hnone
          exact absurd (List.getLast?_eq_none_iff.mp hnone) (by simp)
        · intro sv hsv
          rw [List.filter_cons_of_pos (p := fun sv : SkinVertex => sv.index == sv0.index)
            (a := sv0) (by simp)] at hsv
          cases hfr : rest.filter (fun sv => sv.index == sv0.index) with
          | nil =>
            rw [hfr] at hsv
            simp only [List.getLast?_singleton] at hsv
            have hsv2 : sv0 = sv := by
              simpa using hsv
            subst hsv2
            have h1 := ihj.1 (by rw [hfr]; rfl)
            rw [h1, List.getElem?_set_self hlt]
          | cons b bs =>
            rw [hfr, List.getLast?_cons_cons] at hsv
            exact ihj.2 sv (by rw [hfr]; exact hsv)
      · constructor
        · intro hnone
          rw [List.filter_cons_of_neg (p := fun sv : SkinVertex => sv.index == j)
            (a := sv0) (by simpa using hj)] at hnone
          rw [ihj.1 hnone, List.getElem?_set_ne hj]
        · intro sv hsv
          rw [List.filter_cons_of_neg (p := fun sv : SkinVertex => sv.index == j)
            (a := sv0) (by simpa using hj)] at hsv
          exact ihj.2 sv hsv
    · rw [if_neg hlt] at h
      exact Except.noConfusion h

/-- Last-write-wins characterization of the whole synthesis loop, with
stamping events ordered by modification source order and record array
order. -/
theorem synthesizeLoop_last (f3dContext : OOTF3DContext) :
    ∀ (mods : List SkinLimbModif) (init t : List (Option SkinF3DVert)),
      synthesizeLoop f3dContext mods init = .ok t →
      ∀ j : Nat,
        ((stampsFor mods j).getLast? = none → t[j]? = init[j]?)
        ∧ (∀ p : SkinLimbModif × SkinVertex, (stampsFor mods j).getLast? = some p →
            ∃ vtxPoint : Vec3, computeVtxPoint f3dContext p.1 = .ok vtxPoint ∧
              t[j]? = some (some (mkSkinF3DVert vtxPoint
                (skinWeightData p.1.limbTransformations) p.1 p.2))) := by
  intro mods
  induction mods with
  | nil =>
    intro init t h j
    simp only [synthesizeLoop] at h
    cases h
    constructor
    · intro _
      rfl
    · intro p hp
      simp only [stampsFor, List.getLast?_nil] at hp
      exact Option.noConfusion hp
  | cons modif rest ih =>
    intro init t h j
    simp only [synthesizeLoop] at h
    cases hp : processModif f3dContext init modif with
    | error e =>
      simp only [hp] at h
      exact Except.noConfusion h
    | ok mid =>
      simp only [hp] at h
      have ihj := ih mid t h j
      unfold processModif at hp
      cases ha : computeVtxPoint f3dContext modif with
      | error e =>
        simp only [ha] at hp
        exact Except.noConfusion hp
      | ok vtxPoint =>
        simp only [ha] at hp
        have sl := stampVertices_last vtxPoint (skinWeightData modif.limbTransformations)
          modif modif.skinVertices init mid hp j
        have hsplit : (stampsFor (modif :: rest) j).getLast?
            = (stampsFor rest j).getLast?.or
                (((modif.skinVertices.filter (fun sv => sv.index == j)).map
                  (fun sv => (modif, sv))).getLast?) := by
          simp only [stampsFor, List.getLast?_append]
        constructor
        · intro hnone
          rw [hsplit] at hnone
          obtain ⟨hB, hA⟩ := Option.or_eq_none.mp hnone
          have hAf : (modif.skinVertices.filter (fun sv => sv.index == j)).getLast?
              = none := by
            rw [List.getLast?_map] at hA
            exact Option.map_eq_none'.mp hA
          rw [ihj.1 hB, sl.1 hAf]
        · intro p hpLast
          rw [hsplit] at hpLast
          cases hB : (stampsFor rest j).getLast? with
          | some p2 =>
            rw [hB, Option.or_some] at hpLast
            have hpp : p2 = p := by
              exact Option.some.inj hpLast
            subst hpp
            exact ihj.2 p2 hB
          | none =>
            rw [hB, Option.none_or, List.getLast?_map] at hpLast
            obtain ⟨svLast, hsvLast, hpeq⟩ := Option.map_eq_some'.mp hpLast
            subst hpeq
            refine ⟨vtxPoint, ha, ?_⟩
            rw [ihj.1 hB]
            exact sl.2 svLast hsvLast

/-- When every anchor resolves but some record's index is at or past the
end of the table, the synthesis loop fails with the index error. -/
theorem synthesizeLoop_badIndex (f3dContext : OOTF3DContext) :
    ∀ (mods : List SkinLimbModif) (init : List (Option SkinF3DVert)),
      (∀ m ∈ mods, ∃ p : Vec3, computeVtxPoint f3dContext m = .ok p) →
      (∃ m ∈ mods, ∃ sv ∈ m.skinVertices, init.length ≤ sv.index) →
      synthesizeLoop f3dContext mods init = .error .indexError := by
  intro mods
  induction mods with
  | nil =>
    intro init _ hbad
    obtain ⟨m, hm, _⟩ := hbad
    cases hm
  | cons modif rest ih =>
    intro init hanch hbad
    obtain ⟨pt, hpt⟩ := hanch modif (by simp)
    cases hstamp : stampVertices pt (skinWeightData modif.limbTransformations) modif
        modif.skinVertices init with
    | error e =>
      have he := stampVertices_err_eq _ _ _ _ _ _ hstamp
      subst he
      have hpm : processModif f3dContext init modif = .error .indexError := by
        simp only [processModif, hpt, hstamp]
      simp only [synthesizeLoop, hpm]
    | ok mid =>
      have hpm : processModif f3dContext init modif = .ok mid := by
        simp only [processModif, hpt, hstamp]
      obtain ⟨m, hm, sv, hsv, hidx⟩ := hbad
      have hrec : synthesizeLoop f3dContext rest mid = .error .indexError := by
        rcases List.mem_cons.mp hm with rfl | hm2
        · exfalso
          have := stampVertices_ok_indices _ _ _ _ _ _ hstamp sv hsv
          omega
        · refine ih mid ?_ ⟨m, hm2, sv, hsv, ?_⟩
          · intro m2 hm2b
            exact hanch m2 (by simp [hm2b])
          · rw [stampVertices_length _ _ _ _ _ _ hstamp]
            exact hidx
      simp only [synthesizeLoop, hpm, hrec]

/-- C4: the synthesized vertex table has exactly `totalVtxCount` slots;
every record of every modification is stamped at the slot given by its
own `index` field, modifications processed in source order with the last
write winning (characterized below through the last stamping event
targeting each slot, untargeted slots keeping their initial empty
content); and whenever a record's index is at or past `totalVtxCount`,
synthesis never returns a table — it fails loudly, with the index error
whenever every anchor resolves — rather than silently growing the
table. -/
theorem synthesizeVertexData_table_spec (f3dContext : OOTF3DContext)
    (skinAnimLimbData : SkinAnimatedLimbData) :
    (∀ t : List (Option SkinF3DVert),
      synthesizeVertexData f3dContext skinAnimLimbData = .ok t →
      t.length = skinAnimLimbData.totalVtxCount
      ∧ ∀ j : Nat,
          (((stampsFor skinAnimLimbData.limbModifications j).getLast? = none →
            t[j]? = (List.replicate skinAnimLimbData.totalVtxCount
              (none : Option SkinF3DVert))[j]?)
          ∧ (∀ p : SkinLimbModif × SkinVertex,
              (stampsFor skinAnimLimbData.limbModifications j).getLast? = some p →
              ∃ vtxPoint : Vec3, computeVtxPoint f3dContext p.1 = .ok vtxPoint ∧
                t[j]? = some (some (mkSkinF3DVert vtxPoint
                  (skinWeightData p.1.limbTransformations) p.1 p.2)))))
    ∧ ((∃ m ∈ skinAnimLimbData.limbModifications, ∃ sv ∈ m.skinVertices,
          skinAnimLimbData.totalVtxCount ≤ sv.index) →
        (∀ t : List (Option SkinF3DVert),
          synthesizeVertexData f3dContext skinAnimLimbData ≠ .ok t)
        ∧ ((∀ m ∈ skinAnimLimbData.limbModifications,
              ∃ p : Vec3, computeVtxPoint f3dContext m = .ok p) →
            synthesizeVertexData f3dContext skinAnimLimbData = .error .indexError)) := by
  constructor
  · intro t h
    refine ⟨?_, ?_⟩
    · rw [synthesizeLoop_length f3dContext _ _ _ h, List.length_replicate]
    · intro j
      exact synthesizeLoop_last f3dContext _ _ _ h j
  · intro hbad
    constructor
    · intro t hok
      obtain ⟨m, hm, sv, hsv, hidx⟩ := hbad
      have := synthesizeLoop_ok_indices f3dContext _ _ _ hok m hm sv hsv
      rw [List.length_replicate] at this
      omega
    · intro hanch
      obtain ⟨m, hm, sv, hsv, hidx⟩ := hbad
      exact synthesizeLoop_badIndex f3dContext skinAnimLimbData.limbModifications
        (List.replicate skinAnimLimbData.totalVtxCount none) hanch
        ⟨m, hm, sv, hsv, by rw [List.length_replicate]; exact hidx⟩

/-- Witness for C4: the concrete single-modification data synthesizes a
table of exactly 2 = totalVtxCount slots whose slot 0 holds the vertex
stamped from the record with index 0, and the undersized variant
(capacity 1, index 1 used) fails with the index error. -/
theorem synthesizeVertexData_table_spec_witness :
    wSynthTable.length = wData.totalVtxCount
    ∧ (∃ vtxPoint : Vec3, computeVtxPoint wCtx wModifSingle = .ok vtxPoint ∧
        wSynthTable[0]? = some (some (mkSkinF3DVert vtxPoint
          (skinWeightData wModifSingle.limbTransformations) wModifSingle wSkinVertex0)))
    ∧ synthesizeVertexData wCtx wDataBad = .error .indexError := by
  have h := (synthesizeVertexData_table_spec wCtx wData).1 wSynthTable rfl
  have hbadidx : ∃ m ∈ wDataBad.limbModifications, ∃ sv ∈ m.skinVertices,
      wDataBad.totalVtxCount ≤ sv.index :=
    ⟨wModifSingle, by simp [wDataBad], wSkinVertex1, by simp [wModifSingle], by decide⟩
  have hanch : ∀ m ∈ wDataBad.limbModifications,
      ∃ p : Vec3, computeVtxPoint wCtx m = .ok p := by
    intro m hm
    rcases List.mem_cons.mp hm with rfl | hm2
    · exact ⟨_, rfl⟩
    · cases hm2
  have hbad := ((synthesizeVertexData_table_spec wCtx wDataBad).2 hbadidx).2 hanch
  have h0 := (h.2 0).2 (wModifSingle, wSkinVertex0) rfl
  exact ⟨h.1, h0, hbad⟩
